import Mathlib

/-!
Verification of the QA scoring validation and aggregation engine of the
call-qa-backend repository: the rubric model of `qa_models.py`, the response
normalizers of `qa_evaluator.py` and `field_extractor.py`, and the bulk
batch-with-retry orchestration of `main.py`, shallowly embedded in Lean.
Python integers are modelled as `Int`; pydantic `ValidationError` and the
`ValueError`s raised inside validators are modelled by the `Except` monad
with an explicit error datatype that renders to the exact source message.
-/

namespace CallQA

/-- One scored rubric parameter, mirroring `QAParameter` in `qa_models.py`:
a numeric score plus an optional justification string. -/
structure QAParameter where
  score : Int
  reason : Option String
  deriving Repr, DecidableEq

/-- The `greeting` category of `qa_models.py`. -/
structure Greeting where
  greet_protocol : QAParameter
  offer_help : QAParameter
  deriving Repr, DecidableEq

/-- The `information` category of `qa_models.py`. -/
structure Information where
  confirm_info : QAParameter
  confirm_location : QAParameter
  confirm_modality : QAParameter
  complete_details : QAParameter
  info_within_1min : QAParameter
  deriving Repr, DecidableEq

/-- The `hold_procedure` category of `qa_models.py`. -/
structure HoldProcedure where
  proper_hold_script : QAParameter
  extend_hold_disconnect : QAParameter
  reconnect_after_60s : QAParameter
  deriving Repr, DecidableEq

/-- The `quality_check` category of `qa_models.py`. -/
structure QualityCheck where
  no_interrupt : QAParameter
  attentive : QAParameter
  no_jargon : QAParameter
  no_repetition : QAParameter
  polite_courteous : QAParameter
  tone_speed : QAParameter
  deriving Repr, DecidableEq

/-- The `unsure_situation` category of `qa_models.py`. -/
structure UnsureSituation where
  assure_callback : QAParameter
  deriving Repr, DecidableEq

/-- The `closing_script` category of `qa_models.py`. -/
structure ClosingScript where
  ask_further_help : QAParameter
  follow_closing : QAParameter
  accurate_info : QAParameter
  deriving Repr, DecidableEq

/-- The `sound_quality` category of `qa_models.py`. -/
structure SoundQuality where
  clear_confident : QAParameter
  deriving Repr, DecidableEq

/-- The `record_handling` category of `qa_models.py`. -/
structure RecordHandling where
  accurate_record : QAParameter
  proper_disposition : QAParameter
  spell_check : QAParameter
  deriving Repr, DecidableEq

/-- The full `QAEvaluation` record of `qa_models.py`: eight categories, an
optional transcript summary, and the submitted `total_score`.  The same shape
serves as the raw keyword-argument input to the pydantic constructor and as
the validated object, since pydantic validators return the values unchanged. -/
structure QAEvaluation where
  transcript_summary : Option String
  greeting : Greeting
  information : Information
  hold_procedure : HoldProcedure
  quality_check : QualityCheck
  unsure_situation : UnsureSituation
  closing_script : ClosingScript
  sound_quality : SoundQuality
  record_handling : RecordHandling
  total_score : Int
  deriving Repr, DecidableEq

/-- Names of the 24 rubric parameters of the section-3 table. -/
inductive Param where
  | greet_protocol | offer_help
  | confirm_info | confirm_location | confirm_modality
  | complete_details | info_within_1min
  | proper_hold_script | extend_hold_disconnect | reconnect_after_60s
  | no_interrupt | attentive | no_jargon | no_repetition
  | polite_courteous | tone_speed
  | assure_callback
  | ask_further_help | follow_closing | accurate_info
  | clear_confident
  | accurate_record | proper_disposition | spell_check
  deriving Repr, DecidableEq, Fintype

/-- Validation failures raised inside `qa_models.py`: a per-parameter
`ValueError` from one of the field validators, the total-score mismatch
`ValueError`, or the over-100 `ValueError`. -/
inductive VErr where
  | param (p : Param)
  | totalMismatch (v calculated : Int)
  | totalExceeds
  deriving Repr, DecidableEq

/-- The parameter's name as it appears in the source. -/
def Param.name : Param → String
  | .greet_protocol => "greet_protocol"
  | .offer_help => "offer_help"
  | .confirm_info => "confirm_info"
  | .confirm_location => "confirm_location"
  | .confirm_modality => "confirm_modality"
  | .complete_details => "complete_details"
  | .info_within_1min => "info_within_1min"
  | .proper_hold_script => "proper_hold_script"
  | .extend_hold_disconnect => "extend_hold_disconnect"
  | .reconnect_after_60s => "reconnect_after_60s"
  | .no_interrupt => "no_interrupt"
  | .attentive => "attentive"
  | .no_jargon => "no_jargon"
  | .no_repetition => "no_repetition"
  | .polite_courteous => "polite_courteous"
  | .tone_speed => "tone_speed"
  | .assure_callback => "assure_callback"
  | .ask_further_help => "ask_further_help"
  | .follow_closing => "follow_closing"
  | .accurate_info => "accurate_info"
  | .clear_confident => "clear_confident"
  | .accurate_record => "accurate_record"
  | .proper_disposition => "proper_disposition"
  | .spell_check => "spell_check"

/-- The exact `ValueError` message each field validator raises in
`qa_models.py`. -/
def Param.errText : Param → String
  | .greet_protocol => "greet_protocol score must be 0, 1, 3, or 4"
  | .offer_help => "offer_help score must be 0 or 2"
  | .confirm_info => "confirm_info score must be 0, 1, or 3"
  | .confirm_location => "confirm_location score must be 0 or 4"
  | .confirm_modality => "confirm_modality score must be 0, 2, or 4"
  | .complete_details => "complete_details score must be 0 or 2"
  | .info_within_1min => "info_within_1min score must be 0 or 2"
  | .proper_hold_script => "proper_hold_script score must be 0 or 4"
  | .extend_hold_disconnect => "extend_hold_disconnect score must be 0 or 4"
  | .reconnect_after_60s => "reconnect_after_60s score must be 0 or 4"
  | .no_interrupt => "no_interrupt score must be 0 or 2"
  | .attentive => "attentive score must be 0, 1, or 3"
  | .no_jargon => "no_jargon score must be 0 or 2"
  | .no_repetition => "no_repetition score must be 0, 1, or 2"
  | .polite_courteous => "polite_courteous score must be 1, 3, or 4"
  | .tone_speed => "tone_speed score must be 1, 3, or 5"
  | .assure_callback => "assure_callback score must be 0, 3, or 5"
  | .ask_further_help => "ask_further_help score must be 0 or 3"
  | .follow_closing => "follow_closing score must be 0 or 3"
  | .accurate_info => "accurate_info score must be 0 or 4"
  | .clear_confident => "clear_confident score must be 1, 3, or 4"
  | .accurate_record => "accurate_record score must be between 0 and 10"
  | .proper_disposition => "proper_disposition score must be between 0 and 10"
  | .spell_check => "spell_check score must be between 0 and 10"

/-- Rendering of a validation failure to the message string the source
raises. -/
def VErr.render : VErr → String
  | .param p => p.errText
  | .totalMismatch v c =>
      s!"total_score {v} does not match calculated total {c}"
  | .totalExceeds => "total_score cannot exceed 100"

/-- The legal score set of each parameter, exactly the conditions tested by
the `@validator` functions in `qa_models.py`. -/
def Param.legal : Param → Int → Bool
  | .greet_protocol, s => decide (s ∈ ([0, 1, 3, 4] : List Int))
  | .offer_help, s => decide (s ∈ ([0, 2] : List Int))
  | .confirm_info, s => decide (s ∈ ([0, 1, 3] : List Int))
  | .confirm_location, s => decide (s ∈ ([0, 4] : List Int))
  | .confirm_modality, s => decide (s ∈ ([0, 2, 4] : List Int))
  | .complete_details, s => decide (s ∈ ([0, 2] : List Int))
  | .info_within_1min, s => decide (s ∈ ([0, 2] : List Int))
  | .proper_hold_script, s => decide (s ∈ ([0, 4] : List Int))
  | .extend_hold_disconnect, s => decide (s ∈ ([0, 4] : List Int))
  | .reconnect_after_60s, s => decide (s ∈ ([0, 4] : List Int))
  | .no_interrupt, s => decide (s ∈ ([0, 2] : List Int))
  | .attentive, s => decide (s ∈ ([0, 1, 3] : List Int))
  | .no_jargon, s => decide (s ∈ ([0, 2] : List Int))
  | .no_repetition, s => decide (s ∈ ([0, 1, 2] : List Int))
  | .polite_courteous, s => decide (s ∈ ([1, 3, 4] : List Int))
  | .tone_speed, s => decide (s ∈ ([1, 3, 5] : List Int))
  | .assure_callback, s => decide (s ∈ ([0, 3, 5] : List Int))
  | .ask_further_help, s => decide (s ∈ ([0, 3] : List Int))
  | .follow_closing, s => decide (s ∈ ([0, 3] : List Int))
  | .accurate_info, s => decide (s ∈ ([0, 4] : List Int))
  | .clear_confident, s => decide (s ∈ ([1, 3, 4] : List Int))
  | .accurate_record, s => decide (0 ≤ s ∧ s ≤ 10)
  | .proper_disposition, s => decide (0 ≤ s ∧ s ≤ 10)
  | .spell_check, s => decide (0 ≤ s ∧ s ≤ 10)

/-- The score submitted for a given parameter of an evaluation. -/
def QAEvaluation.paramScore (r : QAEvaluation) : Param → Int
  | .greet_protocol => r.greeting.greet_protocol.score
  | .offer_help => r.greeting.offer_help.score
  | .confirm_info => r.information.confirm_info.score
  | .confirm_location => r.information.confirm_location.score
  | .confirm_modality => r.information.confirm_modality.score
  | .complete_details => r.information.complete_details.score
  | .info_within_1min => r.information.info_within_1min.score
  | .proper_hold_script => r.hold_procedure.proper_hold_script.score
  | .extend_hold_disconnect => r.hold_procedure.extend_hold_disconnect.score
  | .reconnect_after_60s => r.hold_procedure.reconnect_after_60s.score
  | .no_interrupt => r.quality_check.no_interrupt.score
  | .attentive => r.quality_check.attentive.score
  | .no_jargon => r.quality_check.no_jargon.score
  | .no_repetition => r.quality_check.no_repetition.score
  | .polite_courteous => r.quality_check.polite_courteous.score
  | .tone_speed => r.quality_check.tone_speed.score
  | .assure_callback => r.unsure_situation.assure_callback.score
  | .ask_further_help => r.closing_script.ask_further_help.score
  | .follow_closing => r.closing_script.follow_closing.score
  | .accurate_info => r.closing_script.accurate_info.score
  | .clear_confident => r.sound_quality.clear_confident.score
  | .accurate_record => r.record_handling.accurate_record.score
  | .proper_disposition => r.record_handling.proper_disposition.score
  | .spell_check => r.record_handling.spell_check.score

/-- Every parameter of the evaluation carries a score in its legal set. -/
def QAEvaluation.allLegal (r : QAEvaluation) : Prop :=
  ∀ p : Param, p.legal (r.paramScore p) = true

instance (r : QAEvaluation) : Decidable r.allLegal := by
  unfold QAEvaluation.allLegal; infer_instance

/-! Per-field validators, one per `@validator` in `qa_models.py`.  Each tests
the submitted score against the parameter's legal set and either raises the
parameter's `ValueError` or returns the value unchanged. -/

/-- Source validator `validate_greet_protocol_score`. -/
def validate_greet_protocol_score (v : QAParameter) : Except VErr QAParameter :=
  if v.score ∈ ([0, 1, 3, 4] : List Int) then .ok v
  else .error (.param .greet_protocol)

/-- Source validator `validate_offer_help_score`. -/
def validate_offer_help_score (v : QAParameter) : Except VErr QAParameter :=
  if v.score ∈ ([0, 2] : List Int) then .ok v else .error (.param .offer_help)

/-- Source validator `validate_confirm_info_score`. -/
def validate_confirm_info_score (v : QAParameter) : Except VErr QAParameter :=
  if v.score ∈ ([0, 1, 3] : List Int) then .ok v
  else .error (.param .confirm_info)

/-- Source validator `validate_confirm_location_score`. -/
def validate_confirm_location_score (v : QAParameter) :
    Except VErr QAParameter :=
  if v.score ∈ ([0, 4] : List Int) then .ok v
  else .error (.param .confirm_location)

/-- Source validator `validate_confirm_modality_score`. -/
def validate_confirm_modality_score (v : QAParameter) :
    Except VErr QAParameter :=
  if v.score ∈ ([0, 2, 4] : List Int) then .ok v
  else .error (.param .confirm_modality)

/-- Source validator `validate_complete_details_score`. -/
def validate_complete_details_score (v : QAParameter) :
    Except VErr QAParameter :=
  if v.score ∈ ([0, 2] : List Int) then .ok v
  else .error (.param .complete_details)

/-- Source validator `validate_info_within_1min_score`. -/
def validate_info_within_1min_score (v : QAParameter) :
    Except VErr QAParameter :=
  if v.score ∈ ([0, 2] : List Int) then .ok v
  else .error (.param .info_within_1min)

/-- Source validator `validate_proper_hold_script_score`. -/
def validate_proper_hold_script_score (v : QAParameter) :
    Except VErr QAParameter :=
  if v.score ∈ ([0, 4] : List Int) then .ok v
  else .error (.param .proper_hold_script)

/-- Source validator `validate_extend_hold_disconnect_score`. -/
def validate_extend_hold_disconnect_score (v : QAParameter) :
    Except VErr QAParameter :=
  if v.score ∈ ([0, 4] : List Int) then .ok v
  else .error (.param .extend_hold_disconnect)

/-- Source validator `validate_reconnect_after_60s_score`. -/
def validate_reconnect_after_60s_score (v : QAParameter) :
    Except VErr QAParameter :=
  if v.score ∈ ([0, 4] : List Int) then .ok v
  else .error (.param .reconnect_after_60s)

/-- Source validator `validate_no_interrupt_score`. -/
def validate_no_interrupt_score (v : QAParameter) : Except VErr QAParameter :=
  if v.score ∈ ([0, 2] : List Int) then .ok v
  else .error (.param .no_interrupt)

/-- Source validator `validate_attentive_score`. -/
def validate_attentive_score (v : QAParameter) : Except VErr QAParameter :=
  if v.score ∈ ([0, 1, 3] : List Int) then .ok v
  else .error (.param .attentive)

/-- Source validator `validate_no_jargon_score`. -/
def validate_no_jargon_score (v : QAParameter) : Except VErr QAParameter :=
  if v.score ∈ ([0, 2] : List Int) then .ok v else .error (.param .no_jargon)

/-- Source validator `validate_no_repetition_score`. -/
def validate_no_repetition_score (v : QAParameter) : Except VErr QAParameter :=
  if v.score ∈ ([0, 1, 2] : List Int) then .ok v
  else .error (.param .no_repetition)

/-- Source validator `validate_polite_courteous_score`. -/
def validate_polite_courteous_score (v : QAParameter) :
    Except VErr QAParameter :=
  if v.score ∈ ([1, 3, 4] : List Int) then .ok v
  else .error (.param .polite_courteous)

/-- Source validator `validate_tone_speed_score`. -/
def validate_tone_speed_score (v : QAParameter) : Except VErr QAParameter :=
  if v.score ∈ ([1, 3, 5] : List Int) then .ok v
  else .error (.param .tone_speed)

/-- Source validator `validate_assure_callback_score`. -/
def validate_assure_callback_score (v : QAParameter) :
    Except VErr QAParameter :=
  if v.score ∈ ([0, 3, 5] : List Int) then .ok v
  else .error (.param .assure_callback)

/-- Source validator `validate_ask_further_help_score`. -/
def validate_ask_further_help_score (v : QAParameter) :
    Except VErr QAParameter :=
  if v.score ∈ ([0, 3] : List Int) then .ok v
  else .error (.param .ask_further_help)

/-- Source validator `validate_follow_closing_score`. -/
def validate_follow_closing_score (v : QAParameter) : Except VErr QAParameter :=
  if v.score ∈ ([0, 3] : List Int) then .ok v
  else .error (.param .follow_closing)

/-- Source validator `validate_accurate_info_score`. -/
def validate_accurate_info_score (v : QAParameter) : Except VErr QAParameter :=
  if v.score ∈ ([0, 4] : List Int) then .ok v
  else .error (.param .accurate_info)

/-- Source validator `validate_clear_confident_score`. -/
def validate_clear_confident_score (v : QAParameter) :
    Except VErr QAParameter :=
  if v.score ∈ ([1, 3, 4] : List Int) then .ok v
  else .error (.param .clear_confident)

/-- Source validator `validate_accurate_record_score`: any score from 0 to
10 is allowed. -/
def validate_accurate_record_score (v : QAParameter) :
    Except VErr QAParameter :=
  if 0 ≤ v.score ∧ v.score ≤ 10 then .ok v
  else .error (.param .accurate_record)

/-- Source validator `validate_proper_disposition_score`: any score from 0
to 10 is allowed. -/
def validate_proper_disposition_score (v : QAParameter) :
    Except VErr QAParameter :=
  if 0 ≤ v.score ∧ v.score ≤ 10 then .ok v
  else .error (.param .proper_disposition)

/-- Source validator `validate_spell_check_score`: any score from 0 to 10 is
allowed. -/
def validate_spell_check_score (v : QAParameter) : Except VErr QAParameter :=
  if 0 ≤ v.score ∧ v.score ≤ 10 then .ok v
  else .error (.param .spell_check)

/-! Category-level validation: pydantic runs the field validators of each
category model in field-declaration order and fails construction on the
first `ValueError`. -/

/-- Validation of the `Greeting` model. -/
def Greeting.validate (g : Greeting) : Except VErr Greeting :=
  match validate_greet_protocol_score g.greet_protocol with
  | .error e => .error e
  | .ok a =>
      match validate_offer_help_score g.offer_help with
      | .error e => .error e
      | .ok b => .ok ⟨a, b⟩

/-- Validation of the `Information` model. -/
def Information.validate (i : Information) : Except VErr Information :=
  match validate_confirm_info_score i.confirm_info with
  | .error e => .error e
  | .ok a =>
      match validate_confirm_location_score i.confirm_location with
      | .error e => .error e
      | .ok b =>
          match validate_confirm_modality_score i.confirm_modality with
          | .error e => .error e
          | .ok c =>
              match validate_complete_details_score i.complete_details with
              | .error e => .error e
              | .ok d =>
                  match validate_info_within_1min_score i.info_within_1min with
                  | .error e => .error e
                  | .ok f => .ok ⟨a, b, c, d, f⟩

/-- Validation of the `HoldProcedure` model. -/
def HoldProcedure.validate (h : HoldProcedure) : Except VErr HoldProcedure :=
  match validate_proper_hold_script_score h.proper_hold_script with
  | .error e => .error e
  | .ok a =>
      match validate_extend_hold_disconnect_score h.extend_hold_disconnect with
      | .error e => .error e
      | .ok b =>
          match validate_reconnect_after_60s_score h.reconnect_after_60s with
          | .error e => .error e
          | .ok c => .ok ⟨a, b, c⟩

/-- Validation of the `QualityCheck` model. -/
def QualityCheck.validate (q : QualityCheck) : Except VErr QualityCheck :=
  match validate_no_interrupt_score q.no_interrupt with
  | .error e => .error e
  | .ok a =>
      match validate_attentive_score q.attentive with
      | .error e => .error e
      | .ok b =>
          match validate_no_jargon_score q.no_jargon with
          | .error e => .error e
          | .ok c =>
              match validate_no_repetition_score q.no_repetition with
              | .error e => .error e
              | .ok d =>
                  match validate_polite_courteous_score q.polite_courteous with
                  | .error e => .error e
                  | .ok f =>
                      match validate_tone_speed_score q.tone_speed with
                      | .error e => .error e
                      | .ok g => .ok ⟨a, b, c, d, f, g⟩

/-- Validation of the `UnsureSituation` model. -/
def UnsureSituation.validate (u : UnsureSituation) :
    Except VErr UnsureSituation :=
  match validate_assure_callback_score u.assure_callback with
  | .error e => .error e
  | .ok a => .ok ⟨a⟩

/-- Validation of the `ClosingScript` model. -/
def ClosingScript.validate (c : ClosingScript) : Except VErr ClosingScript :=
  match validate_ask_further_help_score c.ask_further_help with
  | .error e => .error e
  | .ok a =>
      match validate_follow_closing_score c.follow_closing with
      | .error e => .error e
      | .ok b =>
          match validate_accurate_info_score c.accurate_info with
          | .error e => .error e
          | .ok d => .ok ⟨a, b, d⟩

/-- Validation of the `SoundQuality` model. -/
def SoundQuality.validate (s : SoundQuality) : Except VErr SoundQuality :=
  match validate_clear_confident_score s.clear_confident with
  | .error e => .error e
  | .ok a => .ok ⟨a⟩

/-- Validation of the `RecordHandling` model. -/
def RecordHandling.validate (r : RecordHandling) : Except VErr RecordHandling :=
  match validate_accurate_record_score r.accurate_record with
  | .error e => .error e
  | .ok a =>
      match validate_proper_disposition_score r.proper_disposition with
      | .error e => .error e
      | .ok b =>
          match validate_spell_check_score r.spell_check with
          | .error e => .error e
          | .ok c => .ok ⟨a, b, c⟩

/-- The calculated total of `QAEvaluation.validate_total_score` in
`qa_models.py`: the sum of all 24 parameter scores, grouped by category in
the source's traversal order. -/
def computeTotal (r : QAEvaluation) : Int :=
  (r.greeting.greet_protocol.score + r.greeting.offer_help.score) +
  (r.information.confirm_info.score + r.information.confirm_location.score +
    r.information.confirm_modality.score +
    r.information.complete_details.score +
    r.information.info_within_1min.score) +
  (r.hold_procedure.proper_hold_script.score +
    r.hold_procedure.extend_hold_disconnect.score +
    r.hold_procedure.reconnect_after_60s.score) +
  (r.quality_check.no_interrupt.score + r.quality_check.attentive.score +
    r.quality_check.no_jargon.score + r.quality_check.no_repetition.score +
    r.quality_check.polite_courteous.score +
    r.quality_check.tone_speed.score) +
  r.unsure_situation.assure_callback.score +
  (r.closing_script.ask_further_help.score +
    r.closing_script.follow_closing.score +
    r.closing_script.accurate_info.score) +
  r.sound_quality.clear_confident.score +
  (r.record_handling.accurate_record.score +
    r.record_handling.proper_disposition.score +
    r.record_handling.spell_check.score)

/-- Construction of a `QAEvaluation`, i.e. `QAEvaluation(**raw)` in pydantic:
the eight category models validate their fields in declaration order, then
the `validate_total_score` validator compares the submitted `total_score`
with the calculated total and rejects a mismatch, then rejects a total above
100.  (Pydantic collects errors from all fields; the embedding short-circuits
at the first, which yields the same success/failure outcome, and the same
single error whenever exactly one check fails.) -/
def QAEvaluation.construct (r : QAEvaluation) : Except VErr QAEvaluation :=
  match r.greeting.validate with
  | .error e => .error e
  | .ok g =>
      match r.information.validate with
      | .error e => .error e
      | .ok i =>
          match r.hold_procedure.validate with
          | .error e => .error e
          | .ok hp =>
              match r.quality_check.validate with
              | .error e => .error e
              | .ok qc =>
                  match r.unsure_situation.validate with
                  | .error e => .error e
                  | .ok us =>
                      match r.closing_script.validate with
                      | .error e => .error e
                      | .ok cs =>
                          match r.sound_quality.validate with
                          | .error e => .error e
                          | .ok sq =>
                              match r.record_handling.validate with
                              | .error e => .error e
                              | .ok rh =>
                                  let ev : QAEvaluation :=
                                    ⟨r.transcript_summary, g, i, hp, qc, us,
                                      cs, sq, rh, r.total_score⟩
                                  let calculated := computeTotal ev
                                  if r.total_score ≠ calculated then
                                    .error (.totalMismatch r.total_score
                                      calculated)
                                  else if r.total_score > 100 then
                                    .error .totalExceeds
                                  else .ok ev

/-- The full `QAParameter` entry submitted for a given parameter. -/
def QAEvaluation.paramEntry (r : QAEvaluation) : Param → QAParameter
  | .greet_protocol => r.greeting.greet_protocol
  | .offer_help => r.greeting.offer_help
  | .confirm_info => r.information.confirm_info
  | .confirm_location => r.information.confirm_location
  | .confirm_modality => r.information.confirm_modality
  | .complete_details => r.information.complete_details
  | .info_within_1min => r.information.info_within_1min
  | .proper_hold_script => r.hold_procedure.proper_hold_script
  | .extend_hold_disconnect => r.hold_procedure.extend_hold_disconnect
  | .reconnect_after_60s => r.hold_procedure.reconnect_after_60s
  | .no_interrupt => r.quality_check.no_interrupt
  | .attentive => r.quality_check.attentive
  | .no_jargon => r.quality_check.no_jargon
  | .no_repetition => r.quality_check.no_repetition
  | .polite_courteous => r.quality_check.polite_courteous
  | .tone_speed => r.quality_check.tone_speed
  | .assure_callback => r.unsure_situation.assure_callback
  | .ask_further_help => r.closing_script.ask_further_help
  | .follow_closing => r.closing_script.follow_closing
  | .accurate_info => r.closing_script.accurate_info
  | .clear_confident => r.sound_quality.clear_confident
  | .accurate_record => r.record_handling.accurate_record
  | .proper_disposition => r.record_handling.proper_disposition
  | .spell_check => r.record_handling.spell_check

/-- The single field validator of `qa_models.py` responsible for a given
parameter, applied to that parameter's submitted entry. -/
def checkParam (p : Param) (r : QAEvaluation) : Except VErr QAParameter :=
  match p with
  | .greet_protocol => validate_greet_protocol_score r.greeting.greet_protocol
  | .offer_help => validate_offer_help_score r.greeting.offer_help
  | .confirm_info => validate_confirm_info_score r.information.confirm_info
  | .confirm_location =>
      validate_confirm_location_score r.information.confirm_location
  | .confirm_modality =>
      validate_confirm_modality_score r.information.confirm_modality
  | .complete_details =>
      validate_complete_details_score r.information.complete_details
  | .info_within_1min =>
      validate_info_within_1min_score r.information.info_within_1min
  | .proper_hold_script =>
      validate_proper_hold_script_score r.hold_procedure.proper_hold_script
  | .extend_hold_disconnect =>
      validate_extend_hold_disconnect_score
        r.hold_procedure.extend_hold_disconnect
  | .reconnect_after_60s =>
      validate_reconnect_after_60s_score r.hold_procedure.reconnect_after_60s
  | .no_interrupt => validate_no_interrupt_score r.quality_check.no_interrupt
  | .attentive => validate_attentive_score r.quality_check.attentive
  | .no_jargon => validate_no_jargon_score r.quality_check.no_jargon
  | .no_repetition =>
      validate_no_repetition_score r.quality_check.no_repetition
  | .polite_courteous =>
      validate_polite_courteous_score r.quality_check.polite_courteous
  | .tone_speed => validate_tone_speed_score r.quality_check.tone_speed
  | .assure_callback =>
      validate_assure_callback_score r.unsure_situation.assure_callback
  | .ask_further_help =>
      validate_ask_further_help_score r.closing_script.ask_further_help
  | .follow_closing =>
      validate_follow_closing_score r.closing_script.follow_closing
  | .accurate_info =>
      validate_accurate_info_score r.closing_script.accurate_info
  | .clear_confident =>
      validate_clear_confident_score r.sound_quality.clear_confident
  | .accurate_record =>
      validate_accurate_record_score r.record_handling.accurate_record
  | .proper_disposition =>
      validate_proper_disposition_score r.record_handling.proper_disposition
  | .spell_check => validate_spell_check_score r.record_handling.spell_check

/-- The fallback evaluation dictionary built by
`QAEvaluator.create_fallback_evaluation` in `qa_evaluator.py`, with its
hard-coded scores and its hard-coded `total_score` of 14.  The extra
`"error"` key of the source dictionary is dropped because pydantic v1
ignores unknown keys at construction. -/
def create_fallback_evaluation (error_message : String) : QAEvaluation where
  transcript_summary := some ("Evaluation failed: " ++ error_message)
  greeting :=
    ⟨⟨0, some "Unable to evaluate"⟩, ⟨0, some "Unable to evaluate"⟩⟩
  information :=
    ⟨⟨0, some "Unable to evaluate"⟩, ⟨0, some "Unable to evaluate"⟩,
      ⟨0, some "Unable to evaluate"⟩, ⟨0, some "Unable to evaluate"⟩,
      ⟨0, some "Unable to evaluate"⟩⟩
  hold_procedure :=
    ⟨⟨4, some "NA - default"⟩, ⟨4, some "NA - default"⟩,
      ⟨4, some "NA - default"⟩⟩
  quality_check :=
    ⟨⟨0, some "Unable to evaluate"⟩, ⟨0, some "Unable to evaluate"⟩,
      ⟨0, some "Unable to evaluate"⟩, ⟨0, some "Unable to evaluate"⟩,
      ⟨1, some "Unable to evaluate"⟩, ⟨1, some "Unable to evaluate"⟩⟩
  unsure_situation := ⟨⟨0, some "Unable to evaluate"⟩⟩
  closing_script :=
    ⟨⟨0, some "Unable to evaluate"⟩, ⟨0, some "Unable to evaluate"⟩,
      ⟨0, some "Unable to evaluate"⟩⟩
  sound_quality := ⟨⟨1, some "Unable to evaluate"⟩⟩
  record_handling :=
    ⟨⟨0, some "Unable to evaluate"⟩, ⟨0, some "Unable to evaluate"⟩,
      ⟨0, some "Unable to evaluate"⟩⟩
  total_score := 14

/-- An all-maximum evaluation used to exercise the theorems at a concrete
input: every parameter at the top of its legal set, total 100. -/
def fullScoreEval : QAEvaluation where
  transcript_summary := none
  greeting := ⟨⟨4, none⟩, ⟨2, none⟩⟩
  information := ⟨⟨3, none⟩, ⟨4, none⟩, ⟨4, none⟩, ⟨2, none⟩, ⟨2, none⟩⟩
  hold_procedure := ⟨⟨4, none⟩, ⟨4, none⟩, ⟨4, none⟩⟩
  quality_check :=
    ⟨⟨2, none⟩, ⟨3, none⟩, ⟨2, none⟩, ⟨2, none⟩, ⟨4, none⟩, ⟨5, none⟩⟩
  unsure_situation := ⟨⟨5, none⟩⟩
  closing_script := ⟨⟨3, none⟩, ⟨3, none⟩, ⟨4, none⟩⟩
  sound_quality := ⟨⟨4, none⟩⟩
  record_handling := ⟨⟨10, none⟩, ⟨10, none⟩, ⟨10, none⟩⟩
  total_score := 100

/-! Model of `QAEvaluator._parse_qa_response` and
`QAEvaluator._calculate_total_score` in `qa_evaluator.py`, at the level of
the dictionary produced by `json.loads`: each of the 8 category sections may
be absent, each parameter object inside a section may be absent, and each
parameter object's `score` key may be absent (`.get` with defaults). -/

/-- A `{"score": ..., "reason": ...}` object as read by
`_calculate_total_score`; only the possibly-absent `score` key matters for
the total. -/
structure ScoreObj where
  score : Option Int
  deriving Repr, DecidableEq

/-- The score of a possibly-absent parameter object:
`section.get(param, {}).get('score', 0)`. -/
def getScoreD : Option ScoreObj → Int
  | none => 0
  | some o => o.score.getD 0

/-- Parsed `greeting` section. -/
structure GreetingData where
  greet_protocol : Option ScoreObj
  offer_help : Option ScoreObj
  deriving Repr, DecidableEq

/-- Parsed `information` section. -/
structure InformationData where
  confirm_info : Option ScoreObj
  confirm_location : Option ScoreObj
  confirm_modality : Option ScoreObj
  complete_details : Option ScoreObj
  info_within_1min : Option ScoreObj
  deriving Repr, DecidableEq

/-- Parsed `hold_procedure` section. -/
structure HoldProcedureData where
  proper_hold_script : Option ScoreObj
  extend_hold_disconnect : Option ScoreObj
  reconnect_after_60s : Option ScoreObj
  deriving Repr, DecidableEq

/-- Parsed `quality_check` section. -/
structure QualityCheckData where
  no_interrupt : Option ScoreObj
  attentive : Option ScoreObj
  no_jargon : Option ScoreObj
  no_repetition : Option ScoreObj
  polite_courteous : Option ScoreObj
  tone_speed : Option ScoreObj
  deriving Repr, DecidableEq

/-- Parsed `unsure_situation` section. -/
structure UnsureSituationData where
  assure_callback : Option ScoreObj
  deriving Repr, DecidableEq

/-- Parsed `closing_script` section. -/
structure ClosingScriptData where
  ask_further_help : Option ScoreObj
  follow_closing : Option ScoreObj
  accurate_info : Option ScoreObj
  deriving Repr, DecidableEq

/-- Parsed `sound_quality` section. -/
structure SoundQualityData where
  clear_confident : Option ScoreObj
  deriving Repr, DecidableEq

/-- Parsed `record_handling` section. -/
structure RecordHandlingData where
  accurate_record : Option ScoreObj
  proper_disposition : Option ScoreObj
  spell_check : Option ScoreObj
  deriving Repr, DecidableEq

/-- The dictionary produced by `json.loads` on the candidate JSON of an LLM
response, with each required section possibly absent and an arbitrary,
possibly absent, caller-supplied `total_score`. -/
structure QAData where
  greeting : Option GreetingData
  information : Option InformationData
  hold_procedure : Option HoldProcedureData
  quality_check : Option QualityCheckData
  unsure_situation : Option UnsureSituationData
  closing_script : Option ClosingScriptData
  sound_quality : Option SoundQualityData
  record_handling : Option RecordHandlingData
  total_score : Option Int
  deriving Repr, DecidableEq

/-- Contribution of the possibly-absent `greeting` section:
`qa_data.get('greeting', {})` followed by per-parameter `.get` chains. -/
def calcGreeting : Option GreetingData → Int
  | none => 0
  | some g => getScoreD g.greet_protocol + getScoreD g.offer_help

/-- Contribution of the possibly-absent `information` section. -/
def calcInformation : Option InformationData → Int
  | none => 0
  | some i => getScoreD i.confirm_info + getScoreD i.confirm_location +
      getScoreD i.confirm_modality + getScoreD i.complete_details +
      getScoreD i.info_within_1min

/-- Contribution of the possibly-absent `hold_procedure` section. -/
def calcHoldProcedure : Option HoldProcedureData → Int
  | none => 0
  | some h => getScoreD h.proper_hold_script +
      getScoreD h.extend_hold_disconnect + getScoreD h.reconnect_after_60s

/-- Contribution of the possibly-absent `quality_check` section. -/
def calcQualityCheck : Option QualityCheckData → Int
  | none => 0
  | some q => getScoreD q.no_interrupt + getScoreD q.attentive +
      getScoreD q.no_jargon + getScoreD q.no_repetition +
      getScoreD q.polite_courteous + getScoreD q.tone_speed

/-- Contribution of the possibly-absent `unsure_situation` section. -/
def calcUnsureSituation : Option UnsureSituationData → Int
  | none => 0
  | some u => getScoreD u.assure_callback

/-- Contribution of the possibly-absent `closing_script` section. -/
def calcClosingScript : Option ClosingScriptData → Int
  | none => 0
  | some c => getScoreD c.ask_further_help + getScoreD c.follow_closing +
      getScoreD c.accurate_info

/-- Contribution of the possibly-absent `sound_quality` section. -/
def calcSoundQuality : Option SoundQualityData → Int
  | none => 0
  | some s => getScoreD s.clear_confident

/-- Contribution of the possibly-absent `record_handling` section. -/
def calcRecordHandling : Option RecordHandlingData → Int
  | none => 0
  | some r => getScoreD r.accurate_record + getScoreD r.proper_disposition +
      getScoreD r.spell_check

/-- `QAEvaluator._calculate_total_score`: the recomputed sum of all
parameter scores present in the parsed dictionary, with every absent
section, parameter or score contributing 0. -/
def calculate_total_score (d : QAData) : Int :=
  calcGreeting d.greeting + calcInformation d.information +
    calcHoldProcedure d.hold_procedure + calcQualityCheck d.quality_check +
    calcUnsureSituation d.unsure_situation +
    calcClosingScript d.closing_script + calcSoundQuality d.sound_quality +
    calcRecordHandling d.record_handling

/-- The required-section names of `_parse_qa_response`, in the order of the
source's `required_sections` list. -/
def requiredSections : List String :=
  ["greeting", "information", "hold_procedure", "quality_check",
   "unsure_situation", "closing_script", "sound_quality", "record_handling"]

/-- Presence of a required section in the parsed dictionary (the source's
`section not in qa_data` test, negated).  Only the 8 names of
`requiredSections` are ever queried. -/
def QAData.sectionPresent (d : QAData) : String → Bool
  | "greeting" => d.greeting.isSome
  | "information" => d.information.isSome
  | "hold_procedure" => d.hold_procedure.isSome
  | "quality_check" => d.quality_check.isSome
  | "unsure_situation" => d.unsure_situation.isSome
  | "closing_script" => d.closing_script.isSome
  | "sound_quality" => d.sound_quality.isSome
  | "record_handling" => d.record_handling.isSome
  | _ => true

/-- The first required section missing from the parsed dictionary, in the
source's loop order, if any. -/
def firstMissingSection (d : QAData) : Option String :=
  requiredSections.find? (fun s => ! d.sectionPresent s)

/-- `QAEvaluator._parse_qa_response`, from the parsed dictionary onwards:
raise `ValueError` naming the first missing required section (surfaced by
the source's `except` clause as `Failed to parse QA response: ...`), and
otherwise always overwrite `total_score` with the recomputed sum. -/
def parse_qa_response (d : QAData) : Except String QAData :=
  match firstMissingSection d with
  | some s =>
      .error ("Failed to parse QA response: Missing required section: " ++ s)
  | none => .ok { d with total_score := some (calculate_total_score d) }

/-! Model of `FieldExtractor._parse_gemini_response` and
`FieldExtractor._create_empty_result` in `field_extractor.py`.  The parsed
JSON document is an ordered mapping from string keys to JSON values, as a
Python dict preserves insertion order. -/

/-- JSON values as relevant to the extraction result: strings, numbers and
sequences (enough to express list-typed fields and bare-scalar fields). -/
inductive JVal where
  | str (s : String)
  | num (n : Int)
  | arr (xs : List JVal)

/-- First-occurrence lookup in an ordered string-keyed mapping. -/
def lookupField (d : List (String × JVal)) (k : String) : Option JVal :=
  (d.find? (fun kv => kv.1 == k)).map (fun kv => kv.2)

/-- The required field names of `_parse_gemini_response`, in the source's
`required_fields` order (`sentiment` included). -/
def required_fields : List String :=
  ["agent_names", "patient_names", "test_centers", "tests_mentioned",
   "doctors_mentioned", "contact_info", "appointment_dates", "departments",
   "sentiment"]

/-- The defaulting loop of `_parse_gemini_response`: for every required
field absent from the parsed dictionary, insert an empty list (dict
assignment appends a new key at the end); present fields — including
non-list scalars — are left untouched. -/
def fillMissingFields (d : List (String × JVal)) : List (String × JVal) :=
  required_fields.foldl
    (fun acc f => if (lookupField acc f).isSome then acc
      else acc ++ [(f, .arr [])]) d

/-- `FieldExtractor._create_empty_result`: every required field mapped to an
empty list, plus an `error` entry carrying the message. -/
def create_empty_result (error_message : String) : List (String × JVal) :=
  [("agent_names", .arr []), ("patient_names", .arr []),
   ("test_centers", .arr []), ("tests_mentioned", .arr []),
   ("doctors_mentioned", .arr []), ("contact_info", .arr []),
   ("appointment_dates", .arr []), ("departments", .arr []),
   ("sentiment", .arr []), ("error", .str error_message)]

/-- Index of the first occurrence of a character in a character list
(Python `str.find`, with `None` for the source's `-1`). -/
def findCharIdx (c : Char) : List Char → Option Nat
  | [] => none
  | x :: xs =>
      if x = c then some 0 else (findCharIdx c xs).map (fun i => i + 1)

/-- `response_text.find(c)`. -/
def strFind (s : String) (c : Char) : Option Nat :=
  findCharIdx c s.data

/-- `response_text.rfind(c)` (index of the last occurrence). -/
def strRfind (s : String) (c : Char) : Option Nat :=
  match findCharIdx c s.data.reverse with
  | none => none
  | some i => some (s.data.length - 1 - i)

/-- The candidate JSON document `response_text[start_idx:end_idx]` between
the first `{` and the last `}` inclusive; `none` exactly when the source
takes its `start_idx == -1 or end_idx == 0` branch. -/
def braceCandidate (s : String) : Option String :=
  match strFind s '{', strRfind s '}' with
  | some i, some j => some (String.mk ((s.data.drop i).take (j + 1 - i)))
  | _, _ => none

/-- `FieldExtractor._parse_gemini_response`, parameterized by the JSON
parser (`json.loads`, external to this repository): with no brace pair it
returns the empty result, on a parser failure it returns the empty result
carrying the parser's message, and otherwise it returns the parsed
dictionary with absent required fields defaulted.  It raises nothing. -/
def parse_gemini_response
    (jsonLoads : String → Except String (List (String × JVal)))
    (response_text : String) : List (String × JVal) :=
  match braceCandidate response_text with
  | none => create_empty_result "No JSON found in response"
  | some js =>
      match jsonLoads js with
      | .error e => create_empty_result ("JSON parsing error: " ++ e)
      | .ok d => fillMissingFields d

/-! Model of the bulk batch endpoint `bulk_upload_and_process` in
`main.py`: each file's pipeline outcome on the first attempt and on the
(potential) retry is taken as given — either a raised exception caught by
`asyncio.gather(..., return_exceptions=True)` or a result dictionary with a
`success` flag and an error message — and the report-assembly logic is
modelled exactly. -/

/-- Outcome of one `process_single_file` call for one file: a raised
exception with its message, or a returned result dictionary with its
`success` flag and (for failures) its `error` message. -/
inductive POutcome where
  | exc (msg : String)
  | res (success : Bool) (error : String)
  deriving Repr, DecidableEq

/-- One file of the batch together with its pipeline outcome on each of the
two possible attempts. -/
structure FileItem where
  filename : String
  first : POutcome
  second : POutcome
  deriving Repr, DecidableEq

/-- An entry of the `successful` list: the result dictionary of a
successful `process_single_file` call.  Such dictionaries carry no
`attempt` key, modelled as an optional field. -/
structure SuccessEntry where
  filename : String
  attempt : Option Nat
  deriving Repr, DecidableEq

/-- An entry of the `failed_results` list: filename, error message and the
`attempt` tag the endpoint writes. -/
structure FailedEntry where
  filename : String
  error : String
  attempt : Nat
  deriving Repr, DecidableEq

/-- The response body assembled by `bulk_upload_and_process`. -/
structure BatchReport where
  total_files : Nat
  successful_count : Nat
  failed_count : Nat
  successful_files : List SuccessEntry
  failed_files : List FailedEntry
  deriving Repr, DecidableEq

/-- First-pass triage of one gathered result, as in the source's first
`for i, result in enumerate(results)` loop: exceptions and non-success
results go to the failed side (keeping the file for retry and recording
`attempt: 1`); success results go to `successful` unchanged. -/
def firstPassStep (f : FileItem) : SuccessEntry ⊕ (FileItem × FailedEntry) :=
  match f.first with
  | .exc msg => .inr (f, ⟨f.filename, msg, 1⟩)
  | .res true _ => .inl ⟨f.filename, none⟩
  | .res false err => .inr (f, ⟨f.filename, err, 1⟩)

/-- Retry-pass settlement of one failed file, as in the source's
`for i, result in enumerate(retry_results)` loop: a second failure updates
the stored entry with `Retry failed: ` and `attempt = 2`; a success is
appended to `successful` as the bare result dictionary (no `attempt`
key). -/
def retryStep (fe : FileItem × FailedEntry) : SuccessEntry ⊕ FailedEntry :=
  match fe.1.second with
  | .exc msg =>
      .inr { fe.2 with error := "Retry failed: " ++ msg, attempt := 2 }
  | .res true _ => .inl ⟨fe.1.filename, none⟩
  | .res false err =>
      .inr { fe.2 with error := "Retry failed: " ++ err, attempt := 2 }

/-- The report-assembly logic of `bulk_upload_and_process`: first pass over
all files, retry pass over the failed ones, final counts over the combined
lists.  (When no file fails, the retry pass runs over an empty list, which
coincides with the source's `if failed_files:` guard.) -/
def bulk_upload_and_process (files : List FileItem) : BatchReport :=
  let firstResults := files.map firstPassStep
  let successful := firstResults.filterMap Sum.getLeft?
  let failedPairs := firstResults.filterMap Sum.getRight?
  let retried := failedPairs.map retryStep
  let finalSuccessful := successful ++ retried.filterMap Sum.getLeft?
  let finalFailed := retried.filterMap Sum.getRight?
  ⟨files.length, finalSuccessful.length, finalFailed.length,
    finalSuccessful, finalFailed⟩

/-! Model of the concurrency discipline of `bulk_upload_and_process`:
`semaphore = asyncio.Semaphore(3)` and every per-file pipeline running
inside `async with semaphore`, in both the first pass and the retry pass.
A task is admitted (acquires a permit, decrementing the available count)
only when a permit is available, runs, and on completion releases its
permit.  The admission gate is modelled as a transition relation over the
count of available permits and the per-task phases. -/

/-- Phase of one per-file task: not yet admitted, in flight inside the
semaphore, or completed. -/
inductive TaskPhase where
  | waiting
  | running
  | done
  deriving Repr, DecidableEq

/-- State of the batch run: available semaphore permits and the phase of
every task. -/
structure SemState where
  avail : Nat
  tasks : List TaskPhase
  deriving Repr, DecidableEq

/-- Number of pipelines currently in flight. -/
def inFlight (s : SemState) : Nat := s.tasks.count .running

/-- One scheduler step: admit a waiting task when a permit is available
(`semaphore.acquire`), or complete a running task (`semaphore.release`).
Admission is impossible at `avail = 0`: a further item is not admitted
until an in-flight item completes. -/
inductive SemStep : SemState → SemState → Prop where
  | acquire (n : Nat) (ts : List TaskPhase) (i : Nat)
      (hi : ts.get? i = some .waiting) :
      SemStep ⟨n + 1, ts⟩ ⟨n, ts.set i .running⟩
  | finish (n : Nat) (ts : List TaskPhase) (i : Nat)
      (hi : ts.get? i = some .running) :
      SemStep ⟨n, ts⟩ ⟨n + 1, ts.set i .done⟩

/-- Initial state of a batch of `k` files: the source's
`asyncio.Semaphore(3)` with all tasks waiting. -/
def initState (k : Nat) : SemState := ⟨3, List.replicate k .waiting⟩

/-! Characterization of category validation: it succeeds exactly when every
field's score is in its legal set, and returns the category unchanged. -/

theorem greeting_validate_eq_ok (g : Greeting)
    (h1 : g.greet_protocol.score ∈ ([0, 1, 3, 4] : List Int))
    (h2 : g.offer_help.score ∈ ([0, 2] : List Int)) :
    g.validate = .ok g := by
  unfold Greeting.validate validate_greet_protocol_score
    validate_offer_help_score
  rw [if_pos h1, if_pos h2]

theorem greeting_validate_ok_inv (g g' : Greeting)
    (h : g.validate = .ok g') :
    g' = g ∧ g.greet_protocol.score ∈ ([0, 1, 3, 4] : List Int) ∧
      g.offer_help.score ∈ ([0, 2] : List Int) := by
  unfold Greeting.validate validate_greet_protocol_score
    validate_offer_help_score at h
  split_ifs at h with h1 h2 <;> simp_all
  exact h.symm

theorem information_validate_eq_ok (i : Information)
    (h1 : i.confirm_info.score ∈ ([0, 1, 3] : List Int))
    (h2 : i.confirm_location.score ∈ ([0, 4] : List Int))
    (h3 : i.confirm_modality.score ∈ ([0, 2, 4] : List Int))
    (h4 : i.complete_details.score ∈ ([0, 2] : List Int))
    (h5 : i.info_within_1min.score ∈ ([0, 2] : List Int)) :
    i.validate = .ok i := by
  unfold Information.validate validate_confirm_info_score
    validate_confirm_location_score validate_confirm_modality_score
    validate_complete_details_score validate_info_within_1min_score
  rw [if_pos h1, if_pos h2, if_pos h3, if_pos h4, if_pos h5]

theorem information_validate_ok_inv (i i' : Information)
    (h : i.validate = .ok i') :
    i' = i ∧ i.confirm_info.score ∈ ([0, 1, 3] : List Int) ∧
      i.confirm_location.score ∈ ([0, 4] : List Int) ∧
      i.confirm_modality.score ∈ ([0, 2, 4] : List Int) ∧
      i.complete_details.score ∈ ([0, 2] : List Int) ∧
      i.info_within_1min.score ∈ ([0, 2] : List Int) := by
  unfold Information.validate validate_confirm_info_score
    validate_confirm_location_score validate_confirm_modality_score
    validate_complete_details_score validate_info_within_1min_score at h
  split_ifs at h with h1 h2 h3 h4 h5 <;> simp_all
  exact h.symm

theorem hold_procedure_validate_eq_ok (hp : HoldProcedure)
    (h1 : hp.proper_hold_script.score ∈ ([0, 4] : List Int))
    (h2 : hp.extend_hold_disconnect.score ∈ ([0, 4] : List Int))
    (h3 : hp.reconnect_after_60s.score ∈ ([0, 4] : List Int)) :
    hp.validate = .ok hp := by
  unfold HoldProcedure.validate validate_proper_hold_script_score
    validate_extend_hold_disconnect_score validate_reconnect_after_60s_score
  rw [if_pos h1, if_pos h2, if_pos h3]

theorem hold_procedure_validate_ok_inv (hp hp' : HoldProcedure)
    (h : hp.validate = .ok hp') :
    hp' = hp ∧ hp.proper_hold_script.score ∈ ([0, 4] : List Int) ∧
      hp.extend_hold_disconnect.score ∈ ([0, 4] : List Int) ∧
      hp.reconnect_after_60s.score ∈ ([0, 4] : List Int) := by
  unfold HoldProcedure.validate validate_proper_hold_script_score
    validate_extend_hold_disconnect_score
    validate_reconnect_after_60s_score at h
  split_ifs at h with h1 h2 h3 <;> simp_all
  exact h.symm

theorem quality_check_validate_eq_ok (q : QualityCheck)
    (h1 : q.no_interrupt.score ∈ ([0, 2] : List Int))
    (h2 : q.attentive.score ∈ ([0, 1, 3] : List Int))
    (h3 : q.no_jargon.score ∈ ([0, 2] : List Int))
    (h4 : q.no_repetition.score ∈ ([0, 1, 2] : List Int))
    (h5 : q.polite_courteous.score ∈ ([1, 3, 4] : List Int))
    (h6 : q.tone_speed.score ∈ ([1, 3, 5] : List Int)) :
    q.validate = .ok q := by
  unfold QualityCheck.validate validate_no_interrupt_score
    validate_attentive_score validate_no_jargon_score
    validate_no_repetition_score validate_polite_courteous_score
    validate_tone_speed_score
  rw [if_pos h1, if_pos h2, if_pos h3, if_pos h4, if_pos h5, if_pos h6]

theorem quality_check_validate_ok_inv (q q' : QualityCheck)
    (h : q.validate = .ok q') :
    q' = q ∧ q.no_interrupt.score ∈ ([0, 2] : List Int) ∧
      q.attentive.score ∈ ([0, 1, 3] : List Int) ∧
      q.no_jargon.score ∈ ([0, 2] : List Int) ∧
      q.no_repetition.score ∈ ([0, 1, 2] : List Int) ∧
      q.polite_courteous.score ∈ ([1, 3, 4] : List Int) ∧
      q.tone_speed.score ∈ ([1, 3, 5] : List Int) := by
  unfold QualityCheck.validate validate_no_interrupt_score
    validate_attentive_score validate_no_jargon_score
    validate_no_repetition_score validate_polite_courteous_score
    validate_tone_speed_score at h
  split_ifs at h with h1 h2 h3 h4 h5 h6 <;> simp_all
  exact h.symm

theorem unsure_situation_validate_eq_ok (u : UnsureSituation)
    (h1 : u.assure_callback.score ∈ ([0, 3, 5] : List Int)) :
    u.validate = .ok u := by
  unfold UnsureSituation.validate validate_assure_callback_score
  rw [if_pos h1]

theorem unsure_situation_validate_ok_inv (u u' : UnsureSituation)
    (h : u.validate = .ok u') :
    u' = u ∧ u.assure_callback.score ∈ ([0, 3, 5] : List Int) := by
  unfold UnsureSituation.validate validate_assure_callback_score at h
  split_ifs at h with h1 <;> simp_all
  exact h.symm

theorem closing_script_validate_eq_ok (c : ClosingScript)
    (h1 : c.ask_further_help.score ∈ ([0, 3] : List Int))
    (h2 : c.follow_closing.score ∈ ([0, 3] : List Int))
    (h3 : c.accurate_info.score ∈ ([0, 4] : List Int)) :
    c.validate = .ok c := by
  unfold ClosingScript.validate validate_ask_further_help_score
    validate_follow_closing_score validate_accurate_info_score
  rw [if_pos h1, if_pos h2, if_pos h3]

theorem closing_script_validate_ok_inv (c c' : ClosingScript)
    (h : c.validate = .ok c') :
    c' = c ∧ c.ask_further_help.score ∈ ([0, 3] : List Int) ∧
      c.follow_closing.score ∈ ([0, 3] : List Int) ∧
      c.accurate_info.score ∈ ([0, 4] : List Int) := by
  unfold ClosingScript.validate validate_ask_further_help_score
    validate_follow_closing_score validate_accurate_info_score at h
  split_ifs at h with h1 h2 h3 <;> simp_all
  exact h.symm

theorem sound_quality_validate_eq_ok (s : SoundQuality)
    (h1 : s.clear_confident.score ∈ ([1, 3, 4] : List Int)) :
    s.validate = .ok s := by
  unfold SoundQuality.validate validate_clear_confident_score
  rw [if_pos h1]

theorem sound_quality_validate_ok_inv (s s' : SoundQuality)
    (h : s.validate = .ok s') :
    s' = s ∧ s.clear_confident.score ∈ ([1, 3, 4] : List Int) := by
  unfold SoundQuality.validate validate_clear_confident_score at h
  split_ifs at h with h1 <;> simp_all
  exact h.symm

theorem record_handling_validate_eq_ok (rh : RecordHandling)
    (h1 : 0 ≤ rh.accurate_record.score ∧ rh.accurate_record.score ≤ 10)
    (h2 : 0 ≤ rh.proper_disposition.score ∧ rh.proper_disposition.score ≤ 10)
    (h3 : 0 ≤ rh.spell_check.score ∧ rh.spell_check.score ≤ 10) :
    rh.validate = .ok rh := by
  unfold RecordHandling.validate validate_accurate_record_score
    validate_proper_disposition_score validate_spell_check_score
  rw [if_pos h1, if_pos h2, if_pos h3]

theorem record_handling_validate_ok_inv (rh rh' : RecordHandling)
    (h : rh.validate = .ok rh') :
    rh' = rh ∧
      (0 ≤ rh.accurate_record.score ∧ rh.accurate_record.score ≤ 10) ∧
      (0 ≤ rh.proper_disposition.score ∧
        rh.proper_disposition.score ≤ 10) ∧
      (0 ≤ rh.spell_check.score ∧ rh.spell_check.score ≤ 10) := by
  unfold RecordHandling.validate validate_accurate_record_score
    validate_proper_disposition_score validate_spell_check_score at h
  split_ifs at h with h1 h2 h3 <;> simp_all
  exact h.symm

/-- Convenient bundle of the 24 legality facts of an evaluation, in the
membership form used by the validators. -/
theorem allLegal_elim (r : QAEvaluation) (hl : r.allLegal) :
    r.greeting.greet_protocol.score ∈ ([0, 1, 3, 4] : List Int) ∧
    r.greeting.offer_help.score ∈ ([0, 2] : List Int) ∧
    r.information.confirm_info.score ∈ ([0, 1, 3] : List Int) ∧
    r.information.confirm_location.score ∈ ([0, 4] : List Int) ∧
    r.information.confirm_modality.score ∈ ([0, 2, 4] : List Int) ∧
    r.information.complete_details.score ∈ ([0, 2] : List Int) ∧
    r.information.info_within_1min.score ∈ ([0, 2] : List Int) ∧
    r.hold_procedure.proper_hold_script.score ∈ ([0, 4] : List Int) ∧
    r.hold_procedure.extend_hold_disconnect.score ∈ ([0, 4] : List Int) ∧
    r.hold_procedure.reconnect_after_60s.score ∈ ([0, 4] : List Int) ∧
    r.quality_check.no_interrupt.score ∈ ([0, 2] : List Int) ∧
    r.quality_check.attentive.score ∈ ([0, 1, 3] : List Int) ∧
    r.quality_check.no_jargon.score ∈ ([0, 2] : List Int) ∧
    r.quality_check.no_repetition.score ∈ ([0, 1, 2] : List Int) ∧
    r.quality_check.polite_courteous.score ∈ ([1, 3, 4] : List Int) ∧
    r.quality_check.tone_speed.score ∈ ([1, 3, 5] : List Int) ∧
    r.unsure_situation.assure_callback.score ∈ ([0, 3, 5] : List Int) ∧
    r.closing_script.ask_further_help.score ∈ ([0, 3] : List Int) ∧
    r.closing_script.follow_closing.score ∈ ([0, 3] : List Int) ∧
    r.closing_script.accurate_info.score ∈ ([0, 4] : List Int) ∧
    r.sound_quality.clear_confident.score ∈ ([1, 3, 4] : List Int) ∧
    (0 ≤ r.record_handling.accurate_record.score ∧
      r.record_handling.accurate_record.score ≤ 10) ∧
    (0 ≤ r.record_handling.proper_disposition.score ∧
      r.record_handling.proper_disposition.score ≤ 10) ∧
    (0 ≤ r.record_handling.spell_check.score ∧
      r.record_handling.spell_check.score ≤ 10) :=
  ⟨of_decide_eq_true (hl .greet_protocol),
   of_decide_eq_true (hl .offer_help),
   of_decide_eq_true (hl .confirm_info),
   of_decide_eq_true (hl .confirm_location),
   of_decide_eq_true (hl .confirm_modality),
   of_decide_eq_true (hl .complete_details),
   of_decide_eq_true (hl .info_within_1min),
   of_decide_eq_true (hl .proper_hold_script),
   of_decide_eq_true (hl .extend_hold_disconnect),
   of_decide_eq_true (hl .reconnect_after_60s),
   of_decide_eq_true (hl .no_interrupt),
   of_decide_eq_true (hl .attentive),
   of_decide_eq_true (hl .no_jargon),
   of_decide_eq_true (hl .no_repetition),
   of_decide_eq_true (hl .polite_courteous),
   of_decide_eq_true (hl .tone_speed),
   of_decide_eq_true (hl .assure_callback),
   of_decide_eq_true (hl .ask_further_help),
   of_decide_eq_true (hl .follow_closing),
   of_decide_eq_true (hl .accurate_info),
   of_decide_eq_true (hl .clear_confident),
   of_decide_eq_true (hl .accurate_record),
   of_decide_eq_true (hl .proper_disposition),
   of_decide_eq_true (hl .spell_check)⟩

/-- A fully legal evaluation constructs successfully whenever the submitted
total matches the calculated sum and is at most 100, returning the
evaluation unchanged. -/
theorem QAEvaluation.construct_eq_ok (r : QAEvaluation) (hl : r.allLegal)
    (ht : r.total_score = computeTotal r) (h100 : r.total_score ≤ 100) :
    r.construct = .ok r := by
  obtain ⟨h1, h2, h3, h4, h5, h6, h7, h8, h9, h10, h11, h12, h13, h14, h15,
    h16, h17, h18, h19, h20, h21, h22, h23, h24⟩ := allLegal_elim r hl
  unfold QAEvaluation.construct
  rw [greeting_validate_eq_ok _ h1 h2,
    information_validate_eq_ok _ h3 h4 h5 h6 h7,
    hold_procedure_validate_eq_ok _ h8 h9 h10,
    quality_check_validate_eq_ok _ h11 h12 h13 h14 h15 h16,
    unsure_situation_validate_eq_ok _ h17,
    closing_script_validate_eq_ok _ h18 h19 h20,
    sound_quality_validate_eq_ok _ h21,
    record_handling_validate_eq_ok _ h22 h23 h24]
  show (if r.total_score ≠ computeTotal r then
      Except.error (VErr.totalMismatch r.total_score (computeTotal r))
    else if r.total_score > 100 then Except.error VErr.totalExceeds
    else Except.ok r) = Except.ok r
  rw [if_neg (by omega), if_neg (by omega)]

/-- Inverse characterization: a successful construction implies every
parameter is legal, the total matches the calculated sum, the total is at
most 100, and the returned object is the input unchanged. -/
theorem QAEvaluation.construct_ok_inv (r ev : QAEvaluation)
    (h : r.construct = .ok ev) :
    ev = r ∧ r.allLegal ∧ r.total_score = computeTotal r ∧
      r.total_score ≤ 100 := by
  unfold QAEvaluation.construct at h
  cases hg : r.greeting.validate with
  | error e => rw [hg] at h; simp at h
  | ok g =>
  rw [hg] at h
  cases hi : r.information.validate with
  | error e => rw [hi] at h; simp at h
  | ok i =>
  rw [hi] at h
  cases hh : r.hold_procedure.validate with
  | error e => rw [hh] at h; simp at h
  | ok hp =>
  rw [hh] at h
  cases hq : r.quality_check.validate with
  | error e => rw [hq] at h; simp at h
  | ok qc =>
  rw [hq] at h
  cases hu : r.unsure_situation.validate with
  | error e => rw [hu] at h; simp at h
  | ok us =>
  rw [hu] at h
  cases hc : r.closing_script.validate with
  | error e => rw [hc] at h; simp at h
  | ok cs =>
  rw [hc] at h
  cases hs : r.sound_quality.validate with
  | error e => rw [hs] at h; simp at h
  | ok sq =>
  rw [hs] at h
  cases hr : r.record_handling.validate with
  | error e => rw [hr] at h; simp at h
  | ok rh =>
  rw [hr] at h
  obtain ⟨hgeq, hg1, hg2⟩ := greeting_validate_ok_inv _ _ hg
  obtain ⟨hieq, hi1, hi2, hi3, hi4, hi5⟩ := information_validate_ok_inv _ _ hi
  obtain ⟨hheq, hh1, hh2, hh3⟩ := hold_procedure_validate_ok_inv _ _ hh
  obtain ⟨hqeq, hq1, hq2, hq3, hq4, hq5, hq6⟩ :=
    quality_check_validate_ok_inv _ _ hq
  obtain ⟨hueq, hu1⟩ := unsure_situation_validate_ok_inv _ _ hu
  obtain ⟨hceq, hc1, hc2, hc3⟩ := closing_script_validate_ok_inv _ _ hc
  obtain ⟨hseq, hs1⟩ := sound_quality_validate_ok_inv _ _ hs
  obtain ⟨hreq, hr1, hr2, hr3⟩ := record_handling_validate_ok_inv _ _ hr
  subst hgeq hieq hheq hqeq hueq hceq hseq hreq
  replace h : (if r.total_score ≠ computeTotal r then
      Except.error (VErr.totalMismatch r.total_score (computeTotal r))
    else if r.total_score > 100 then Except.error VErr.totalExceeds
    else Except.ok r) = Except.ok ev := h
  split_ifs at h with hne hgt
  replace h : r = ev := by simpa using h
  subst h
  refine ⟨rfl, ?_, by omega, by omega⟩
  intro p
  cases p
  exacts [decide_eq_true hg1, decide_eq_true hg2, decide_eq_true hi1,
    decide_eq_true hi2, decide_eq_true hi3, decide_eq_true hi4,
    decide_eq_true hi5, decide_eq_true hh1, decide_eq_true hh2,
    decide_eq_true hh3, decide_eq_true hq1, decide_eq_true hq2,
    decide_eq_true hq3, decide_eq_true hq4, decide_eq_true hq5,
    decide_eq_true hq6, decide_eq_true hu1, decide_eq_true hc1,
    decide_eq_true hc2, decide_eq_true hc3, decide_eq_true hs1,
    decide_eq_true hr1, decide_eq_true hr2, decide_eq_true hr3]

/-- On a fully legal evaluation the calculated total is between 0 and 100:
the per-parameter minima are nonnegative and the maxima sum to exactly
100. -/
theorem bounds_of_mem (lo hi : Int) {x : Int} {l : List Int} (h : x ∈ l)
    (hall : ∀ y ∈ l, lo ≤ y ∧ y ≤ hi) : lo ≤ x ∧ x ≤ hi :=
  hall x h

theorem computeTotal_bounds (r : QAEvaluation) (hl : r.allLegal) :
    0 ≤ computeTotal r ∧ computeTotal r ≤ 100 := by
  obtain ⟨h1, h2, h3, h4, h5, h6, h7, h8, h9, h10, h11, h12, h13, h14, h15,
    h16, h17, h18, h19, h20, h21, h22, h23, h24⟩ := allLegal_elim r hl
  have b1 := bounds_of_mem 0 4 h1 (by decide)
  have b2 := bounds_of_mem 0 2 h2 (by decide)
  have b3 := bounds_of_mem 0 3 h3 (by decide)
  have b4 := bounds_of_mem 0 4 h4 (by decide)
  have b5 := bounds_of_mem 0 4 h5 (by decide)
  have b6 := bounds_of_mem 0 2 h6 (by decide)
  have b7 := bounds_of_mem 0 2 h7 (by decide)
  have b8 := bounds_of_mem 0 4 h8 (by decide)
  have b9 := bounds_of_mem 0 4 h9 (by decide)
  have b10 := bounds_of_mem 0 4 h10 (by decide)
  have b11 := bounds_of_mem 0 2 h11 (by decide)
  have b12 := bounds_of_mem 0 3 h12 (by decide)
  have b13 := bounds_of_mem 0 2 h13 (by decide)
  have b14 := bounds_of_mem 0 2 h14 (by decide)
  have b15 := bounds_of_mem 1 4 h15 (by decide)
  have b16 := bounds_of_mem 1 5 h16 (by decide)
  have b17 := bounds_of_mem 0 5 h17 (by decide)
  have b18 := bounds_of_mem 0 3 h18 (by decide)
  have b19 := bounds_of_mem 0 3 h19 (by decide)
  have b20 := bounds_of_mem 0 4 h20 (by decide)
  have b21 := bounds_of_mem 1 4 h21 (by decide)
  clear h1 h2 h3 h4 h5 h6 h7 h8 h9 h10 h11 h12 h13 h14 h15 h16 h17 h18 h19
    h20 h21
  unfold computeTotal
  omega

/-- A fully legal evaluation whose submitted total disagrees with the
calculated sum is rejected with the mismatch `ValueError`. -/
theorem QAEvaluation.construct_eq_mismatch (r : QAEvaluation)
    (hl : r.allLegal) (hne : r.total_score ≠ computeTotal r) :
    r.construct =
      .error (.totalMismatch r.total_score (computeTotal r)) := by
  obtain ⟨h1, h2, h3, h4, h5, h6, h7, h8, h9, h10, h11, h12, h13, h14, h15,
    h16, h17, h18, h19, h20, h21, h22, h23, h24⟩ := allLegal_elim r hl
  unfold QAEvaluation.construct
  rw [greeting_validate_eq_ok _ h1 h2,
    information_validate_eq_ok _ h3 h4 h5 h6 h7,
    hold_procedure_validate_eq_ok _ h8 h9 h10,
    quality_check_validate_eq_ok _ h11 h12 h13 h14 h15 h16,
    unsure_situation_validate_eq_ok _ h17,
    closing_script_validate_eq_ok _ h18 h19 h20,
    sound_quality_validate_eq_ok _ h21,
    record_handling_validate_eq_ok _ h22 h23 h24]
  show (if r.total_score ≠ computeTotal r then
      Except.error (VErr.totalMismatch r.total_score (computeTotal r))
    else if r.total_score > 100 then Except.error VErr.totalExceeds
    else Except.ok r) =
    Except.error (VErr.totalMismatch r.total_score (computeTotal r))
  rw [if_pos hne]

/-! Propagation of a category validation failure through construction: the
first failing category's error is the construction error. -/

theorem construct_error_greeting {r : QAEvaluation} {e : VErr}
    (h : r.greeting.validate = .error e) : r.construct = .error e := by
  unfold QAEvaluation.construct
  rw [h]

theorem construct_error_information {r : QAEvaluation} {g : Greeting}
    {e : VErr} (hg : r.greeting.validate = .ok g)
    (h : r.information.validate = .error e) : r.construct = .error e := by
  unfold QAEvaluation.construct
  rw [hg, h]

theorem construct_error_hold {r : QAEvaluation} {g : Greeting}
    {i : Information} {e : VErr} (hg : r.greeting.validate = .ok g)
    (hi : r.information.validate = .ok i)
    (h : r.hold_procedure.validate = .error e) : r.construct = .error e := by
  unfold QAEvaluation.construct
  rw [hg, hi, h]

theorem construct_error_quality {r : QAEvaluation} {g : Greeting}
    {i : Information} {hp : HoldProcedure} {e : VErr}
    (hg : r.greeting.validate = .ok g)
    (hi : r.information.validate = .ok i)
    (hh : r.hold_procedure.validate = .ok hp)
    (h : r.quality_check.validate = .error e) : r.construct = .error e := by
  unfold QAEvaluation.construct
  rw [hg, hi, hh, h]

theorem construct_error_unsure {r : QAEvaluation} {g : Greeting}
    {i : Information} {hp : HoldProcedure} {q : QualityCheck} {e : VErr}
    (hg : r.greeting.validate = .ok g)
    (hi : r.information.validate = .ok i)
    (hh : r.hold_procedure.validate = .ok hp)
    (hq : r.quality_check.validate = .ok q)
    (h : r.unsure_situation.validate = .error e) : r.construct = .error e := by
  unfold QAEvaluation.construct
  rw [hg, hi, hh, hq, h]

theorem construct_error_closing {r : QAEvaluation} {g : Greeting}
    {i : Information} {hp : HoldProcedure} {q : QualityCheck}
    {u : UnsureSituation} {e : VErr} (hg : r.greeting.validate = .ok g)
    (hi : r.information.validate = .ok i)
    (hh : r.hold_procedure.validate = .ok hp)
    (hq : r.quality_check.validate = .ok q)
    (hu : r.unsure_situation.validate = .ok u)
    (h : r.closing_script.validate = .error e) : r.construct = .error e := by
  unfold QAEvaluation.construct
  rw [hg, hi, hh, hq, hu, h]

theorem construct_error_sound {r : QAEvaluation} {g : Greeting}
    {i : Information} {hp : HoldProcedure} {q : QualityCheck}
    {u : UnsureSituation} {c : ClosingScript} {e : VErr}
    (hg : r.greeting.validate = .ok g)
    (hi : r.information.validate = .ok i)
    (hh : r.hold_procedure.validate = .ok hp)
    (hq : r.quality_check.validate = .ok q)
    (hu : r.unsure_situation.validate = .ok u)
    (hc : r.closing_script.validate = .ok c)
    (h : r.sound_quality.validate = .error e) : r.construct = .error e := by
  unfold QAEvaluation.construct
  rw [hg, hi, hh, hq, hu, hc, h]

theorem construct_error_record {r : QAEvaluation} {g : Greeting}
    {i : Information} {hp : HoldProcedure} {q : QualityCheck}
    {u : UnsureSituation} {c : ClosingScript} {s : SoundQuality} {e : VErr}
    (hg : r.greeting.validate = .ok g)
    (hi : r.information.validate = .ok i)
    (hh : r.hold_procedure.validate = .ok hp)
    (hq : r.quality_check.validate = .ok q)
    (hu : r.unsure_situation.validate = .ok u)
    (hc : r.closing_script.validate = .ok c)
    (hs : r.sound_quality.validate = .ok s)
    (h : r.record_handling.validate = .error e) : r.construct = .error e := by
  unfold QAEvaluation.construct
  rw [hg, hi, hh, hq, hu, hc, hs, h]

theorem Greeting.validate_err_greet_protocol (g : Greeting)
    (hbad : g.greet_protocol.score ∉ ([0, 1, 3, 4] : List Int)) :
    Greeting.validate g = .error (.param .greet_protocol) := by
  unfold Greeting.validate validate_greet_protocol_score validate_offer_help_score
  rw [if_neg hbad]

theorem Greeting.validate_err_offer_help (g : Greeting)
    (h1 : g.greet_protocol.score ∈ ([0, 1, 3, 4] : List Int))
    (hbad : g.offer_help.score ∉ ([0, 2] : List Int)) :
    Greeting.validate g = .error (.param .offer_help) := by
  unfold Greeting.validate validate_greet_protocol_score validate_offer_help_score
  rw [if_pos h1, if_neg hbad]

theorem Information.validate_err_confirm_info (i : Information)
    (hbad : i.confirm_info.score ∉ ([0, 1, 3] : List Int)) :
    Information.validate i = .error (.param .confirm_info) := by
  unfold Information.validate validate_confirm_info_score validate_confirm_location_score validate_confirm_modality_score validate_complete_details_score validate_info_within_1min_score
  rw [if_neg hbad]

theorem Information.validate_err_confirm_location (i : Information)
    (h1 : i.confirm_info.score ∈ ([0, 1, 3] : List Int))
    (hbad : i.confirm_location.score ∉ ([0, 4] : List Int)) :
    Information.validate i = .error (.param .confirm_location) := by
  unfold Information.validate validate_confirm_info_score validate_confirm_location_score validate_confirm_modality_score validate_complete_details_score validate_info_within_1min_score
  rw [if_pos h1, if_neg hbad]

theorem Information.validate_err_confirm_modality (i : Information)
    (h1 : i.confirm_info.score ∈ ([0, 1, 3] : List Int))
    (h2 : i.confirm_location.score ∈ ([0, 4] : List Int))
    (hbad : i.confirm_modality.score ∉ ([0, 2, 4] : List Int)) :
    Information.validate i = .error (.param .confirm_modality) := by
  unfold Information.validate validate_confirm_info_score validate_confirm_location_score validate_confirm_modality_score validate_complete_details_score validate_info_within_1min_score
  rw [if_pos h1, if_pos h2, if_neg hbad]

theorem Information.validate_err_complete_details (i : Information)
    (h1 : i.confirm_info.score ∈ ([0, 1, 3] : List Int))
    (h2 : i.confirm_location.score ∈ ([0, 4] : List Int))
    (h3 : i.confirm_modality.score ∈ ([0, 2, 4] : List Int))
    (hbad : i.complete_details.score ∉ ([0, 2] : List Int)) :
    Information.validate i = .error (.param .complete_details) := by
  unfold Information.validate validate_confirm_info_score validate_confirm_location_score validate_confirm_modality_score validate_complete_details_score validate_info_within_1min_score
  rw [if_pos h1, if_pos h2, if_pos h3, if_neg hbad]

theorem Information.validate_err_info_within_1min (i : Information)
    (h1 : i.confirm_info.score ∈ ([0, 1, 3] : List Int))
    (h2 : i.confirm_location.score ∈ ([0, 4] : List Int))
    (h3 : i.confirm_modality.score ∈ ([0, 2, 4] : List Int))
    (h4 : i.complete_details.score ∈ ([0, 2] : List Int))
    (hbad : i.info_within_1min.score ∉ ([0, 2] : List Int)) :
    Information.validate i = .error (.param .info_within_1min) := by
  unfold Information.validate validate_confirm_info_score validate_confirm_location_score validate_confirm_modality_score validate_complete_details_score validate_info_within_1min_score
  rw [if_pos h1, if_pos h2, if_pos h3, if_pos h4, if_neg hbad]

theorem HoldProcedure.validate_err_proper_hold_script (hp : HoldProcedure)
    (hbad : hp.proper_hold_script.score ∉ ([0, 4] : List Int)) :
    HoldProcedure.validate hp = .error (.param .proper_hold_script) := by
  unfold HoldProcedure.validate validate_proper_hold_script_score validate_extend_hold_disconnect_score validate_reconnect_after_60s_score
  rw [if_neg hbad]

theorem HoldProcedure.validate_err_extend_hold_disconnect (hp : HoldProcedure)
    (h1 : hp.proper_hold_script.score ∈ ([0, 4] : List Int))
    (hbad : hp.extend_hold_disconnect.score ∉ ([0, 4] : List Int)) :
    HoldProcedure.validate hp = .error (.param .extend_hold_disconnect) := by
  unfold HoldProcedure.validate validate_proper_hold_script_score validate_extend_hold_disconnect_score validate_reconnect_after_60s_score
  rw [if_pos h1, if_neg hbad]

theorem HoldProcedure.validate_err_reconnect_after_60s (hp : HoldProcedure)
    (h1 : hp.proper_hold_script.score ∈ ([0, 4] : List Int))
    (h2 : hp.extend_hold_disconnect.score ∈ ([0, 4] : List Int))
    (hbad : hp.reconnect_after_60s.score ∉ ([0, 4] : List Int)) :
    HoldProcedure.validate hp = .error (.param .reconnect_after_60s) := by
  unfold HoldProcedure.validate validate_proper_hold_script_score validate_extend_hold_disconnect_score validate_reconnect_after_60s_score
  rw [if_pos h1, if_pos h2, if_neg hbad]

theorem QualityCheck.validate_err_no_interrupt (q : QualityCheck)
    (hbad : q.no_interrupt.score ∉ ([0, 2] : List Int)) :
    QualityCheck.validate q = .error (.param .no_interrupt) := by
  unfold QualityCheck.validate validate_no_interrupt_score validate_attentive_score validate_no_jargon_score validate_no_repetition_score validate_polite_courteous_score validate_tone_speed_score
  rw [if_neg hbad]

theorem QualityCheck.validate_err_attentive (q : QualityCheck)
    (h1 : q.no_interrupt.score ∈ ([0, 2] : List Int))
    (hbad : q.attentive.score ∉ ([0, 1, 3] : List Int)) :
    QualityCheck.validate q = .error (.param .attentive) := by
  unfold QualityCheck.validate validate_no_interrupt_score validate_attentive_score validate_no_jargon_score validate_no_repetition_score validate_polite_courteous_score validate_tone_speed_score
  rw [if_pos h1, if_neg hbad]

theorem QualityCheck.validate_err_no_jargon (q : QualityCheck)
    (h1 : q.no_interrupt.score ∈ ([0, 2] : List Int))
    (h2 : q.attentive.score ∈ ([0, 1, 3] : List Int))
    (hbad : q.no_jargon.score ∉ ([0, 2] : List Int)) :
    QualityCheck.validate q = .error (.param .no_jargon) := by
  unfold QualityCheck.validate validate_no_interrupt_score validate_attentive_score validate_no_jargon_score validate_no_repetition_score validate_polite_courteous_score validate_tone_speed_score
  rw [if_pos h1, if_pos h2, if_neg hbad]

theorem QualityCheck.validate_err_no_repetition (q : QualityCheck)
    (h1 : q.no_interrupt.score ∈ ([0, 2] : List Int))
    (h2 : q.attentive.score ∈ ([0, 1, 3] : List Int))
    (h3 : q.no_jargon.score ∈ ([0, 2] : List Int))
    (hbad : q.no_repetition.score ∉ ([0, 1, 2] : List Int)) :
    QualityCheck.validate q = .error (.param .no_repetition) := by
  unfold QualityCheck.validate validate_no_interrupt_score validate_attentive_score validate_no_jargon_score validate_no_repetition_score validate_polite_courteous_score validate_tone_speed_score
  rw [if_pos h1, if_pos h2, if_pos h3, if_neg hbad]

theorem QualityCheck.validate_err_polite_courteous (q : QualityCheck)
    (h1 : q.no_interrupt.score ∈ ([0, 2] : List Int))
    (h2 : q.attentive.score ∈ ([0, 1, 3] : List Int))
    (h3 : q.no_jargon.score ∈ ([0, 2] : List Int))
    (h4 : q.no_repetition.score ∈ ([0, 1, 2] : List Int))
    (hbad : q.polite_courteous.score ∉ ([1, 3, 4] : List Int)) :
    QualityCheck.validate q = .error (.param .polite_courteous) := by
  unfold QualityCheck.validate validate_no_interrupt_score validate_attentive_score validate_no_jargon_score validate_no_repetition_score validate_polite_courteous_score validate_tone_speed_score
  rw [if_pos h1, if_pos h2, if_pos h3, if_pos h4, if_neg hbad]

theorem QualityCheck.validate_err_tone_speed (q : QualityCheck)
    (h1 : q.no_interrupt.score ∈ ([0, 2] : List Int))
    (h2 : q.attentive.score ∈ ([0, 1, 3] : List Int))
    (h3 : q.no_jargon.score ∈ ([0, 2] : List Int))
    (h4 : q.no_repetition.score ∈ ([0, 1, 2] : List Int))
    (h5 : q.polite_courteous.score ∈ ([1, 3, 4] : List Int))
    (hbad : q.tone_speed.score ∉ ([1, 3, 5] : List Int)) :
    QualityCheck.validate q = .error (.param .tone_speed) := by
  unfold QualityCheck.validate validate_no_interrupt_score validate_attentive_score validate_no_jargon_score validate_no_repetition_score validate_polite_courteous_score validate_tone_speed_score
  rw [if_pos h1, if_pos h2, if_pos h3, if_pos h4, if_pos h5, if_neg hbad]

theorem UnsureSituation.validate_err_assure_callback (u : UnsureSituation)
    (hbad : u.assure_callback.score ∉ ([0, 3, 5] : List Int)) :
    UnsureSituation.validate u = .error (.param .assure_callback) := by
  unfold UnsureSituation.validate validate_assure_callback_score
  rw [if_neg hbad]

theorem ClosingScript.validate_err_ask_further_help (c : ClosingScript)
    (hbad : c.ask_further_help.score ∉ ([0, 3] : List Int)) :
    ClosingScript.validate c = .error (.param .ask_further_help) := by
  unfold ClosingScript.validate validate_ask_further_help_score validate_follow_closing_score validate_accurate_info_score
  rw [if_neg hbad]

theorem ClosingScript.validate_err_follow_closing (c : ClosingScript)
    (h1 : c.ask_further_help.score ∈ ([0, 3] : List Int))
    (hbad : c.follow_closing.score ∉ ([0, 3] : List Int)) :
    ClosingScript.validate c = .error (.param .follow_closing) := by
  unfold ClosingScript.validate validate_ask_further_help_score validate_follow_closing_score validate_accurate_info_score
  rw [if_pos h1, if_neg hbad]

theorem ClosingScript.validate_err_accurate_info (c : ClosingScript)
    (h1 : c.ask_further_help.score ∈ ([0, 3] : List Int))
    (h2 : c.follow_closing.score ∈ ([0, 3] : List Int))
    (hbad : c.accurate_info.score ∉ ([0, 4] : List Int)) :
    ClosingScript.validate c = .error (.param .accurate_info) := by
  unfold ClosingScript.validate validate_ask_further_help_score validate_follow_closing_score validate_accurate_info_score
  rw [if_pos h1, if_pos h2, if_neg hbad]

theorem SoundQuality.validate_err_clear_confident (s : SoundQuality)
    (hbad : s.clear_confident.score ∉ ([1, 3, 4] : List Int)) :
    SoundQuality.validate s = .error (.param .clear_confident) := by
  unfold SoundQuality.validate validate_clear_confident_score
  rw [if_neg hbad]

theorem RecordHandling.validate_err_accurate_record (rh : RecordHandling)
    (hbad : ¬ (0 ≤ rh.accurate_record.score ∧ rh.accurate_record.score ≤ 10)) :
    RecordHandling.validate rh = .error (.param .accurate_record) := by
  unfold RecordHandling.validate validate_accurate_record_score validate_proper_disposition_score validate_spell_check_score
  rw [if_neg hbad]

theorem RecordHandling.validate_err_proper_disposition (rh : RecordHandling)
    (h1 : 0 ≤ rh.accurate_record.score ∧ rh.accurate_record.score ≤ 10)
    (hbad : ¬ (0 ≤ rh.proper_disposition.score ∧ rh.proper_disposition.score ≤ 10)) :
    RecordHandling.validate rh = .error (.param .proper_disposition) := by
  unfold RecordHandling.validate validate_accurate_record_score validate_proper_disposition_score validate_spell_check_score
  rw [if_pos h1, if_neg hbad]

theorem RecordHandling.validate_err_spell_check (rh : RecordHandling)
    (h1 : 0 ≤ rh.accurate_record.score ∧ rh.accurate_record.score ≤ 10)
    (h2 : 0 ≤ rh.proper_disposition.score ∧ rh.proper_disposition.score ≤ 10)
    (hbad : ¬ (0 ≤ rh.spell_check.score ∧ rh.spell_check.score ≤ 10)) :
    RecordHandling.validate rh = .error (.param .spell_check) := by
  unfold RecordHandling.validate validate_accurate_record_score validate_proper_disposition_score validate_spell_check_score
  rw [if_pos h1, if_pos h2, if_neg hbad]

/-- Helper: with every other parameter legal, an illegal score for
parameter `p` makes construction fail with exactly `p`'s `ValueError`. -/
theorem c2_err (p : Param) (r : QAEvaluation)
    (hothers : ∀ q, q ≠ p → Param.legal q (r.paramScore q) = true)
    (hbad : Param.legal p (r.paramScore p) = false) :
    r.construct = .error (.param p) := by
  cases p with
  | greet_protocol =>
      exact construct_error_greeting
        (Greeting.validate_err_greet_protocol _ (of_decide_eq_false hbad))
  | offer_help =>
      exact construct_error_greeting
        (Greeting.validate_err_offer_help _ (of_decide_eq_true (hothers .greet_protocol (by decide))) (of_decide_eq_false hbad))
  | confirm_info =>
      exact construct_error_information
        (greeting_validate_eq_ok _ (of_decide_eq_true (hothers .greet_protocol (by decide))) (of_decide_eq_true (hothers .offer_help (by decide))))
        (Information.validate_err_confirm_info _ (of_decide_eq_false hbad))
  | confirm_location =>
      exact construct_error_information
        (greeting_validate_eq_ok _ (of_decide_eq_true (hothers .greet_protocol (by decide))) (of_decide_eq_true (hothers .offer_help (by decide))))
        (Information.validate_err_confirm_location _ (of_decide_eq_true (hothers .confirm_info (by decide))) (of_decide_eq_false hbad))
  | confirm_modality =>
      exact construct_error_information
        (greeting_validate_eq_ok _ (of_decide_eq_true (hothers .greet_protocol (by decide))) (of_decide_eq_true (hothers .offer_help (by decide))))
        (Information.validate_err_confirm_modality _ (of_decide_eq_true (hothers .confirm_info (by decide))) (of_decide_eq_true (hothers .confirm_location (by decide))) (of_decide_eq_false hbad))
  | complete_details =>
      exact construct_error_information
        (greeting_validate_eq_ok _ (of_decide_eq_true (hothers .greet_protocol (by decide))) (of_decide_eq_true (hothers .offer_help (by decide))))
        (Information.validate_err_complete_details _ (of_decide_eq_true (hothers .confirm_info (by decide))) (of_decide_eq_true (hothers .confirm_location (by decide))) (of_decide_eq_true (hothers .confirm_modality (by decide))) (of_decide_eq_false hbad))
  | info_within_1min =>
      exact construct_error_information
        (greeting_validate_eq_ok _ (of_decide_eq_true (hothers .greet_protocol (by decide))) (of_decide_eq_true (hothers .offer_help (by decide))))
        (Information.validate_err_info_within_1min _ (of_decide_eq_true (hothers .confirm_info (by decide))) (of_decide_eq_true (hothers .confirm_location (by decide))) (of_decide_eq_true (hothers .confirm_modality (by decide))) (of_decide_eq_true (hothers .complete_details (by decide))) (of_decide_eq_false hbad))
  | proper_hold_script =>
      exact construct_error_hold
        (greeting_validate_eq_ok _ (of_decide_eq_true (hothers .greet_protocol (by decide))) (of_decide_eq_true (hothers .offer_help (by decide))))
        (information_validate_eq_ok _ (of_decide_eq_true (hothers .confirm_info (by decide))) (of_decide_eq_true (hothers .confirm_location (by decide))) (of_decide_eq_true (hothers .confirm_modality (by decide))) (of_decide_eq_true (hothers .complete_details (by decide))) (of_decide_eq_true (hothers .info_within_1min (by decide))))
        (HoldProcedure.validate_err_proper_hold_script _ (of_decide_eq_false hbad))
  | extend_hold_disconnect =>
      exact construct_error_hold
        (greeting_validate_eq_ok _ (of_decide_eq_true (hothers .greet_protocol (by decide))) (of_decide_eq_true (hothers .offer_help (by decide))))
        (information_validate_eq_ok _ (of_decide_eq_true (hothers .confirm_info (by decide))) (of_decide_eq_true (hothers .confirm_location (by decide))) (of_decide_eq_true (hothers .confirm_modality (by decide))) (of_decide_eq_true (hothers .complete_details (by decide))) (of_decide_eq_true (hothers .info_within_1min (by decide))))
        (HoldProcedure.validate_err_extend_hold_disconnect _ (of_decide_eq_true (hothers .proper_hold_script (by decide))) (of_decide_eq_false hbad))
  | reconnect_after_60s =>
      exact construct_error_hold
        (greeting_validate_eq_ok _ (of_decide_eq_true (hothers .greet_protocol (by decide))) (of_decide_eq_true (hothers .offer_help (by decide))))
        (information_validate_eq_ok _ (of_decide_eq_true (hothers .confirm_info (by decide))) (of_decide_eq_true (hothers .confirm_location (by decide))) (of_decide_eq_true (hothers .confirm_modality (by decide))) (of_decide_eq_true (hothers .complete_details (by decide))) (of_decide_eq_true (hothers .info_within_1min (by decide))))
        (HoldProcedure.validate_err_reconnect_after_60s _ (of_decide_eq_true (hothers .proper_hold_script (by decide))) (of_decide_eq_true (hothers .extend_hold_disconnect (by decide))) (of_decide_eq_false hbad))
  | no_interrupt =>
      exact construct_error_quality
        (greeting_validate_eq_ok _ (of_decide_eq_true (hothers .greet_protocol (by decide))) (of_decide_eq_true (hothers .offer_help (by decide))))
        (information_validate_eq_ok _ (of_decide_eq_true (hothers .confirm_info (by decide))) (of_decide_eq_true (hothers .confirm_location (by decide))) (of_decide_eq_true (hothers .confirm_modality (by decide))) (of_decide_eq_true (hothers .complete_details (by decide))) (of_decide_eq_true (hothers .info_within_1min (by decide))))
        (hold_procedure_validate_eq_ok _ (of_decide_eq_true (hothers .proper_hold_script (by decide))) (of_decide_eq_true (hothers .extend_hold_disconnect (by decide))) (of_decide_eq_true (hothers .reconnect_after_60s (by decide))))
        (QualityCheck.validate_err_no_interrupt _ (of_decide_eq_false hbad))
  | attentive =>
      exact construct_error_quality
        (greeting_validate_eq_ok _ (of_decide_eq_true (hothers .greet_protocol (by decide))) (of_decide_eq_true (hothers .offer_help (by decide))))
        (information_validate_eq_ok _ (of_decide_eq_true (hothers .confirm_info (by decide))) (of_decide_eq_true (hothers .confirm_location (by decide))) (of_decide_eq_true (hothers .confirm_modality (by decide))) (of_decide_eq_true (hothers .complete_details (by decide))) (of_decide_eq_true (hothers .info_within_1min (by decide))))
        (hold_procedure_validate_eq_ok _ (of_decide_eq_true (hothers .proper_hold_script (by decide))) (of_decide_eq_true (hothers .extend_hold_disconnect (by decide))) (of_decide_eq_true (hothers .reconnect_after_60s (by decide))))
        (QualityCheck.validate_err_attentive _ (of_decide_eq_true (hothers .no_interrupt (by decide))) (of_decide_eq_false hbad))
  | no_jargon =>
      exact construct_error_quality
        (greeting_validate_eq_ok _ (of_decide_eq_true (hothers .greet_protocol (by decide))) (of_decide_eq_true (hothers .offer_help (by decide))))
        (information_validate_eq_ok _ (of_decide_eq_true (hothers .confirm_info (by decide))) (of_decide_eq_true (hothers .confirm_location (by decide))) (of_decide_eq_true (hothers .confirm_modality (by decide))) (of_decide_eq_true (hothers .complete_details (by decide))) (of_decide_eq_true (hothers .info_within_1min (by decide))))
        (hold_procedure_validate_eq_ok _ (of_decide_eq_true (hothers .proper_hold_script (by decide))) (of_decide_eq_true (hothers .extend_hold_disconnect (by decide))) (of_decide_eq_true (hothers .reconnect_after_60s (by decide))))
        (QualityCheck.validate_err_no_jargon _ (of_decide_eq_true (hothers .no_interrupt (by decide))) (of_decide_eq_true (hothers .attentive (by decide))) (of_decide_eq_false hbad))
  | no_repetition =>
      exact construct_error_quality
        (greeting_validate_eq_ok _ (of_decide_eq_true (hothers .greet_protocol (by decide))) (of_decide_eq_true (hothers .offer_help (by decide))))
        (information_validate_eq_ok _ (of_decide_eq_true (hothers .confirm_info (by decide))) (of_decide_eq_true (hothers .confirm_location (by decide))) (of_decide_eq_true (hothers .confirm_modality (by decide))) (of_decide_eq_true (hothers .complete_details (by decide))) (of_decide_eq_true (hothers .info_within_1min (by decide))))
        (hold_procedure_validate_eq_ok _ (of_decide_eq_true (hothers .proper_hold_script (by decide))) (of_decide_eq_true (hothers .extend_hold_disconnect (by decide))) (of_decide_eq_true (hothers .reconnect_after_60s (by decide))))
        (QualityCheck.validate_err_no_repetition _ (of_decide_eq_true (hothers .no_interrupt (by decide))) (of_decide_eq_true (hothers .attentive (by decide))) (of_decide_eq_true (hothers .no_jargon (by decide))) (of_decide_eq_false hbad))
  | polite_courteous =>
      exact construct_error_quality
        (greeting_validate_eq_ok _ (of_decide_eq_true (hothers .greet_protocol (by decide))) (of_decide_eq_true (hothers .offer_help (by decide))))
        (information_validate_eq_ok _ (of_decide_eq_true (hothers .confirm_info (by decide))) (of_decide_eq_true (hothers .confirm_location (by decide))) (of_decide_eq_true (hothers .confirm_modality (by decide))) (of_decide_eq_true (hothers .complete_details (by decide))) (of_decide_eq_true (hothers .info_within_1min (by decide))))
        (hold_procedure_validate_eq_ok _ (of_decide_eq_true (hothers .proper_hold_script (by decide))) (of_decide_eq_true (hothers .extend_hold_disconnect (by decide))) (of_decide_eq_true (hothers .reconnect_after_60s (by decide))))
        (QualityCheck.validate_err_polite_courteous _ (of_decide_eq_true (hothers .no_interrupt (by decide))) (of_decide_eq_true (hothers .attentive (by decide))) (of_decide_eq_true (hothers .no_jargon (by decide))) (of_decide_eq_true (hothers .no_repetition (by decide))) (of_decide_eq_false hbad))
  | tone_speed =>
      exact construct_error_quality
        (greeting_validate_eq_ok _ (of_decide_eq_true (hothers .greet_protocol (by decide))) (of_decide_eq_true (hothers .offer_help (by decide))))
        (information_validate_eq_ok _ (of_decide_eq_true (hothers .confirm_info (by decide))) (of_decide_eq_true (hothers .confirm_location (by decide))) (of_decide_eq_true (hothers .confirm_modality (by decide))) (of_decide_eq_true (hothers .complete_details (by decide))) (of_decide_eq_true (hothers .info_within_1min (by decide))))
        (hold_procedure_validate_eq_ok _ (of_decide_eq_true (hothers .proper_hold_script (by decide))) (of_decide_eq_true (hothers .extend_hold_disconnect (by decide))) (of_decide_eq_true (hothers .reconnect_after_60s (by decide))))
        (QualityCheck.validate_err_tone_speed _ (of_decide_eq_true (hothers .no_interrupt (by decide))) (of_decide_eq_true (hothers .attentive (by decide))) (of_decide_eq_true (hothers .no_jargon (by decide))) (of_decide_eq_true (hothers .no_repetition (by decide))) (of_decide_eq_true (hothers .polite_courteous (by decide))) (of_decide_eq_false hbad))
  | assure_callback =>
      exact construct_error_unsure
        (greeting_validate_eq_ok _ (of_decide_eq_true (hothers .greet_protocol (by decide))) (of_decide_eq_true (hothers .offer_help (by decide))))
        (information_validate_eq_ok _ (of_decide_eq_true (hothers .confirm_info (by decide))) (of_decide_eq_true (hothers .confirm_location (by decide))) (of_decide_eq_true (hothers .confirm_modality (by decide))) (of_decide_eq_true (hothers .complete_details (by decide))) (of_decide_eq_true (hothers .info_within_1min (by decide))))
        (hold_procedure_validate_eq_ok _ (of_decide_eq_true (hothers .proper_hold_script (by decide))) (of_decide_eq_true (hothers .extend_hold_disconnect (by decide))) (of_decide_eq_true (hothers .reconnect_after_60s (by decide))))
        (quality_check_validate_eq_ok _ (of_decide_eq_true (hothers .no_interrupt (by decide))) (of_decide_eq_true (hothers .attentive (by decide))) (of_decide_eq_true (hothers .no_jargon (by decide))) (of_decide_eq_true (hothers .no_repetition (by decide))) (of_decide_eq_true (hothers .polite_courteous (by decide))) (of_decide_eq_true (hothers .tone_speed (by decide))))
        (UnsureSituation.validate_err_assure_callback _ (of_decide_eq_false hbad))
  | ask_further_help =>
      exact construct_error_closing
        (greeting_validate_eq_ok _ (of_decide_eq_true (hothers .greet_protocol (by decide))) (of_decide_eq_true (hothers .offer_help (by decide))))
        (information_validate_eq_ok _ (of_decide_eq_true (hothers .confirm_info (by decide))) (of_decide_eq_true (hothers .confirm_location (by decide))) (of_decide_eq_true (hothers .confirm_modality (by decide))) (of_decide_eq_true (hothers .complete_details (by decide))) (of_decide_eq_true (hothers .info_within_1min (by decide))))
        (hold_procedure_validate_eq_ok _ (of_decide_eq_true (hothers .proper_hold_script (by decide))) (of_decide_eq_true (hothers .extend_hold_disconnect (by decide))) (of_decide_eq_true (hothers .reconnect_after_60s (by decide))))
        (quality_check_validate_eq_ok _ (of_decide_eq_true (hothers .no_interrupt (by decide))) (of_decide_eq_true (hothers .attentive (by decide))) (of_decide_eq_true (hothers .no_jargon (by decide))) (of_decide_eq_true (hothers .no_repetition (by decide))) (of_decide_eq_true (hothers .polite_courteous (by decide))) (of_decide_eq_true (hothers .tone_speed (by decide))))
        (unsure_situation_validate_eq_ok _ (of_decide_eq_true (hothers .assure_callback (by decide))))
        (ClosingScript.validate_err_ask_further_help _ (of_decide_eq_false hbad))
  | follow_closing =>
      exact construct_error_closing
        (greeting_validate_eq_ok _ (of_decide_eq_true (hothers .greet_protocol (by decide))) (of_decide_eq_true (hothers .offer_help (by decide))))
        (information_validate_eq_ok _ (of_decide_eq_true (hothers .confirm_info (by decide))) (of_decide_eq_true (hothers .confirm_location (by decide))) (of_decide_eq_true (hothers .confirm_modality (by decide))) (of_decide_eq_true (hothers .complete_details (by decide))) (of_decide_eq_true (hothers .info_within_1min (by decide))))
        (hold_procedure_validate_eq_ok _ (of_decide_eq_true (hothers .proper_hold_script (by decide))) (of_decide_eq_true (hothers .extend_hold_disconnect (by decide))) (of_decide_eq_true (hothers .reconnect_after_60s (by decide))))
        (quality_check_validate_eq_ok _ (of_decide_eq_true (hothers .no_interrupt (by decide))) (of_decide_eq_true (hothers .attentive (by decide))) (of_decide_eq_true (hothers .no_jargon (by decide))) (of_decide_eq_true (hothers .no_repetition (by decide))) (of_decide_eq_true (hothers .polite_courteous (by decide))) (of_decide_eq_true (hothers .tone_speed (by decide))))
        (unsure_situation_validate_eq_ok _ (of_decide_eq_true (hothers .assure_callback (by decide))))
        (ClosingScript.validate_err_follow_closing _ (of_decide_eq_true (hothers .ask_further_help (by decide))) (of_decide_eq_false hbad))
  | accurate_info =>
      exact construct_error_closing
        (greeting_validate_eq_ok _ (of_decide_eq_true (hothers .greet_protocol (by decide))) (of_decide_eq_true (hothers .offer_help (by decide))))
        (information_validate_eq_ok _ (of_decide_eq_true (hothers .confirm_info (by decide))) (of_decide_eq_true (hothers .confirm_location (by decide))) (of_decide_eq_true (hothers .confirm_modality (by decide))) (of_decide_eq_true (hothers .complete_details (by decide))) (of_decide_eq_true (hothers .info_within_1min (by decide))))
        (hold_procedure_validate_eq_ok _ (of_decide_eq_true (hothers .proper_hold_script (by decide))) (of_decide_eq_true (hothers .extend_hold_disconnect (by decide))) (of_decide_eq_true (hothers .reconnect_after_60s (by decide))))
        (quality_check_validate_eq_ok _ (of_decide_eq_true (hothers .no_interrupt (by decide))) (of_decide_eq_true (hothers .attentive (by decide))) (of_decide_eq_true (hothers .no_jargon (by decide))) (of_decide_eq_true (hothers .no_repetition (by decide))) (of_decide_eq_true (hothers .polite_courteous (by decide))) (of_decide_eq_true (hothers .tone_speed (by decide))))
        (unsure_situation_validate_eq_ok _ (of_decide_eq_true (hothers .assure_callback (by decide))))
        (ClosingScript.validate_err_accurate_info _ (of_decide_eq_true (hothers .ask_further_help (by decide))) (of_decide_eq_true (hothers .follow_closing (by decide))) (of_decide_eq_false hbad))
  | clear_confident =>
      exact construct_error_sound
        (greeting_validate_eq_ok _ (of_decide_eq_true (hothers .greet_protocol (by decide))) (of_decide_eq_true (hothers .offer_help (by decide))))
        (information_validate_eq_ok _ (of_decide_eq_true (hothers .confirm_info (by decide))) (of_decide_eq_true (hothers .confirm_location (by decide))) (of_decide_eq_true (hothers .confirm_modality (by decide))) (of_decide_eq_true (hothers .complete_details (by decide))) (of_decide_eq_true (hothers .info_within_1min (by decide))))
        (hold_procedure_validate_eq_ok _ (of_decide_eq_true (hothers .proper_hold_script (by decide))) (of_decide_eq_true (hothers .extend_hold_disconnect (by decide))) (of_decide_eq_true (hothers .reconnect_after_60s (by decide))))
        (quality_check_validate_eq_ok _ (of_decide_eq_true (hothers .no_interrupt (by decide))) (of_decide_eq_true (hothers .attentive (by decide))) (of_decide_eq_true (hothers .no_jargon (by decide))) (of_decide_eq_true (hothers .no_repetition (by decide))) (of_decide_eq_true (hothers .polite_courteous (by decide))) (of_decide_eq_true (hothers .tone_speed (by decide))))
        (unsure_situation_validate_eq_ok _ (of_decide_eq_true (hothers .assure_callback (by decide))))
        (closing_script_validate_eq_ok _ (of_decide_eq_true (hothers .ask_further_help (by decide))) (of_decide_eq_true (hothers .follow_closing (by decide))) (of_decide_eq_true (hothers .accurate_info (by decide))))
        (SoundQuality.validate_err_clear_confident _ (of_decide_eq_false hbad))
  | accurate_record =>
      exact construct_error_record
        (greeting_validate_eq_ok _ (of_decide_eq_true (hothers .greet_protocol (by decide))) (of_decide_eq_true (hothers .offer_help (by decide))))
        (information_validate_eq_ok _ (of_decide_eq_true (hothers .confirm_info (by decide))) (of_decide_eq_true (hothers .confirm_location (by decide))) (of_decide_eq_true (hothers .confirm_modality (by decide))) (of_decide_eq_true (hothers .complete_details (by decide))) (of_decide_eq_true (hothers .info_within_1min (by decide))))
        (hold_procedure_validate_eq_ok _ (of_decide_eq_true (hothers .proper_hold_script (by decide))) (of_decide_eq_true (hothers .extend_hold_disconnect (by decide))) (of_decide_eq_true (hothers .reconnect_after_60s (by decide))))
        (quality_check_validate_eq_ok _ (of_decide_eq_true (hothers .no_interrupt (by decide))) (of_decide_eq_true (hothers .attentive (by decide))) (of_decide_eq_true (hothers .no_jargon (by decide))) (of_decide_eq_true (hothers .no_repetition (by decide))) (of_decide_eq_true (hothers .polite_courteous (by decide))) (of_decide_eq_true (hothers .tone_speed (by decide))))
        (unsure_situation_validate_eq_ok _ (of_decide_eq_true (hothers .assure_callback (by decide))))
        (closing_script_validate_eq_ok _ (of_decide_eq_true (hothers .ask_further_help (by decide))) (of_decide_eq_true (hothers .follow_closing (by decide))) (of_decide_eq_true (hothers .accurate_info (by decide))))
        (sound_quality_validate_eq_ok _ (of_decide_eq_true (hothers .clear_confident (by decide))))
        (RecordHandling.validate_err_accurate_record _ (of_decide_eq_false hbad))
  | proper_disposition =>
      exact construct_error_record
        (greeting_validate_eq_ok _ (of_decide_eq_true (hothers .greet_protocol (by decide))) (of_decide_eq_true (hothers .offer_help (by decide))))
        (information_validate_eq_ok _ (of_decide_eq_true (hothers .confirm_info (by decide))) (of_decide_eq_true (hothers .confirm_location (by decide))) (of_decide_eq_true (hothers .confirm_modality (by decide))) (of_decide_eq_true (hothers .complete_details (by decide))) (of_decide_eq_true (hothers .info_within_1min (by decide))))
        (hold_procedure_validate_eq_ok _ (of_decide_eq_true (hothers .proper_hold_script (by decide))) (of_decide_eq_true (hothers .extend_hold_disconnect (by decide))) (of_decide_eq_true (hothers .reconnect_after_60s (by decide))))
        (quality_check_validate_eq_ok _ (of_decide_eq_true (hothers .no_interrupt (by decide))) (of_decide_eq_true (hothers .attentive (by decide))) (of_decide_eq_true (hothers .no_jargon (by decide))) (of_decide_eq_true (hothers .no_repetition (by decide))) (of_decide_eq_true (hothers .polite_courteous (by decide))) (of_decide_eq_true (hothers .tone_speed (by decide))))
        (unsure_situation_validate_eq_ok _ (of_decide_eq_true (hothers .assure_callback (by decide))))
        (closing_script_validate_eq_ok _ (of_decide_eq_true (hothers .ask_further_help (by decide))) (of_decide_eq_true (hothers .follow_closing (by decide))) (of_decide_eq_true (hothers .accurate_info (by decide))))
        (sound_quality_validate_eq_ok _ (of_decide_eq_true (hothers .clear_confident (by decide))))
        (RecordHandling.validate_err_proper_disposition _ (of_decide_eq_true (hothers .accurate_record (by decide))) (of_decide_eq_false hbad))
  | spell_check =>
      exact construct_error_record
        (greeting_validate_eq_ok _ (of_decide_eq_true (hothers .greet_protocol (by decide))) (of_decide_eq_true (hothers .offer_help (by decide))))
        (information_validate_eq_ok _ (of_decide_eq_true (hothers .confirm_info (by decide))) (of_decide_eq_true (hothers .confirm_location (by decide))) (of_decide_eq_true (hothers .confirm_modality (by decide))) (of_decide_eq_true (hothers .complete_details (by decide))) (of_decide_eq_true (hothers .info_within_1min (by decide))))
        (hold_procedure_validate_eq_ok _ (of_decide_eq_true (hothers .proper_hold_script (by decide))) (of_decide_eq_true (hothers .extend_hold_disconnect (by decide))) (of_decide_eq_true (hothers .reconnect_after_60s (by decide))))
        (quality_check_validate_eq_ok _ (of_decide_eq_true (hothers .no_interrupt (by decide))) (of_decide_eq_true (hothers .attentive (by decide))) (of_decide_eq_true (hothers .no_jargon (by decide))) (of_decide_eq_true (hothers .no_repetition (by decide))) (of_decide_eq_true (hothers .polite_courteous (by decide))) (of_decide_eq_true (hothers .tone_speed (by decide))))
        (unsure_situation_validate_eq_ok _ (of_decide_eq_true (hothers .assure_callback (by decide))))
        (closing_script_validate_eq_ok _ (of_decide_eq_true (hothers .ask_further_help (by decide))) (of_decide_eq_true (hothers .follow_closing (by decide))) (of_decide_eq_true (hothers .accurate_info (by decide))))
        (sound_quality_validate_eq_ok _ (of_decide_eq_true (hothers .clear_confident (by decide))))
        (RecordHandling.validate_err_spell_check _ (of_decide_eq_true (hothers .accurate_record (by decide))) (of_decide_eq_true (hothers .proper_disposition (by decide))) (of_decide_eq_false hbad))

/-- Helper: a legal score passes its own parameter's field validator. -/
theorem c2_pass (p : Param) (r : QAEvaluation)
    (hgood : Param.legal p (r.paramScore p) = true) :
    checkParam p r = .ok (r.paramEntry p) := by
  cases p with
  | greet_protocol =>
      have hm : r.greeting.greet_protocol.score ∈ ([0, 1, 3, 4] : List Int) := of_decide_eq_true hgood
      unfold checkParam QAEvaluation.paramEntry validate_greet_protocol_score
      rw [if_pos hm]
  | offer_help =>
      have hm : r.greeting.offer_help.score ∈ ([0, 2] : List Int) := of_decide_eq_true hgood
      unfold checkParam QAEvaluation.paramEntry validate_offer_help_score
      rw [if_pos hm]
  | confirm_info =>
      have hm : r.information.confirm_info.score ∈ ([0, 1, 3] : List Int) := of_decide_eq_true hgood
      unfold checkParam QAEvaluation.paramEntry validate_confirm_info_score
      rw [if_pos hm]
  | confirm_location =>
      have hm : r.information.confirm_location.score ∈ ([0, 4] : List Int) := of_decide_eq_true hgood
      unfold checkParam QAEvaluation.paramEntry validate_confirm_location_score
      rw [if_pos hm]
  | confirm_modality =>
      have hm : r.information.confirm_modality.score ∈ ([0, 2, 4] : List Int) := of_decide_eq_true hgood
      unfold checkParam QAEvaluation.paramEntry validate_confirm_modality_score
      rw [if_pos hm]
  | complete_details =>
      have hm : r.information.complete_details.score ∈ ([0, 2] : List Int) := of_decide_eq_true hgood
      unfold checkParam QAEvaluation.paramEntry validate_complete_details_score
      rw [if_pos hm]
  | info_within_1min =>
      have hm : r.information.info_within_1min.score ∈ ([0, 2] : List Int) := of_decide_eq_true hgood
      unfold checkParam QAEvaluation.paramEntry validate_info_within_1min_score
      rw [if_pos hm]
  | proper_hold_script =>
      have hm : r.hold_procedure.proper_hold_script.score ∈ ([0, 4] : List Int) := of_decide_eq_true hgood
      unfold checkParam QAEvaluation.paramEntry validate_proper_hold_script_score
      rw [if_pos hm]
  | extend_hold_disconnect =>
      have hm : r.hold_procedure.extend_hold_disconnect.score ∈ ([0, 4] : List Int) := of_decide_eq_true hgood
      unfold checkParam QAEvaluation.paramEntry validate_extend_hold_disconnect_score
      rw [if_pos hm]
  | reconnect_after_60s =>
      have hm : r.hold_procedure.reconnect_after_60s.score ∈ ([0, 4] : List Int) := of_decide_eq_true hgood
      unfold checkParam QAEvaluation.paramEntry validate_reconnect_after_60s_score
      rw [if_pos hm]
  | no_interrupt =>
      have hm : r.quality_check.no_interrupt.score ∈ ([0, 2] : List Int) := of_decide_eq_true hgood
      unfold checkParam QAEvaluation.paramEntry validate_no_interrupt_score
      rw [if_pos hm]
  | attentive =>
      have hm : r.quality_check.attentive.score ∈ ([0, 1, 3] : List Int) := of_decide_eq_true hgood
      unfold checkParam QAEvaluation.paramEntry validate_attentive_score
      rw [if_pos hm]
  | no_jargon =>
      have hm : r.quality_check.no_jargon.score ∈ ([0, 2] : List Int) := of_decide_eq_true hgood
      unfold checkParam QAEvaluation.paramEntry validate_no_jargon_score
      rw [if_pos hm]
  | no_repetition =>
      have hm : r.quality_check.no_repetition.score ∈ ([0, 1, 2] : List Int) := of_decide_eq_true hgood
      unfold checkParam QAEvaluation.paramEntry validate_no_repetition_score
      rw [if_pos hm]
  | polite_courteous =>
      have hm : r.quality_check.polite_courteous.score ∈ ([1, 3, 4] : List Int) := of_decide_eq_true hgood
      unfold checkParam QAEvaluation.paramEntry validate_polite_courteous_score
      rw [if_pos hm]
  | tone_speed =>
      have hm : r.quality_check.tone_speed.score ∈ ([1, 3, 5] : List Int) := of_decide_eq_true hgood
      unfold checkParam QAEvaluation.paramEntry validate_tone_speed_score
      rw [if_pos hm]
  | assure_callback =>
      have hm : r.unsure_situation.assure_callback.score ∈ ([0, 3, 5] : List Int) := of_decide_eq_true hgood
      unfold checkParam QAEvaluation.paramEntry validate_assure_callback_score
      rw [if_pos hm]
  | ask_further_help =>
      have hm : r.closing_script.ask_further_help.score ∈ ([0, 3] : List Int) := of_decide_eq_true hgood
      unfold checkParam QAEvaluation.paramEntry validate_ask_further_help_score
      rw [if_pos hm]
  | follow_closing =>
      have hm : r.closing_script.follow_closing.score ∈ ([0, 3] : List Int) := of_decide_eq_true hgood
      unfold checkParam QAEvaluation.paramEntry validate_follow_closing_score
      rw [if_pos hm]
  | accurate_info =>
      have hm : r.closing_script.accurate_info.score ∈ ([0, 4] : List Int) := of_decide_eq_true hgood
      unfold checkParam QAEvaluation.paramEntry validate_accurate_info_score
      rw [if_pos hm]
  | clear_confident =>
      have hm : r.sound_quality.clear_confident.score ∈ ([1, 3, 4] : List Int) := of_decide_eq_true hgood
      unfold checkParam QAEvaluation.paramEntry validate_clear_confident_score
      rw [if_pos hm]
  | accurate_record =>
      have hm : 0 ≤ r.record_handling.accurate_record.score ∧ r.record_handling.accurate_record.score ≤ 10 := of_decide_eq_true hgood
      unfold checkParam QAEvaluation.paramEntry validate_accurate_record_score
      rw [if_pos hm]
  | proper_disposition =>
      have hm : 0 ≤ r.record_handling.proper_disposition.score ∧ r.record_handling.proper_disposition.score ≤ 10 := of_decide_eq_true hgood
      unfold checkParam QAEvaluation.paramEntry validate_proper_disposition_score
      rw [if_pos hm]
  | spell_check =>
      have hm : 0 ≤ r.record_handling.spell_check.score ∧ r.record_handling.spell_check.score ≤ 10 := of_decide_eq_true hgood
      unfold checkParam QAEvaluation.paramEntry validate_spell_check_score
      rw [if_pos hm]

/-- Every field validator's message begins with the parameter's name. -/
theorem errText_names_param (p : Param) :
    (Param.name p).data.isPrefixOf p.errText.data = true := by
  cases p <;> decide

/-! Helper lemmas on the character-index search of the field-extraction
normalizer. -/

theorem findCharIdx_eq_none_iff (c : Char) (l : List Char) :
    findCharIdx c l = none ↔ c ∉ l := by
  induction l with
  | nil => simp [findCharIdx]
  | cons x xs ih =>
      by_cases hx : x = c
      · subst hx
        simp [findCharIdx]
      · simp [findCharIdx, hx, Option.map_eq_none', ih, Ne.symm hx]

theorem braceCandidate_eq_none {s : String}
    (h : '{' ∉ s.data ∨ '}' ∉ s.data) : braceCandidate s = none := by
  unfold braceCandidate strFind strRfind
  rcases h with h | h
  · rw [(findCharIdx_eq_none_iff _ _).2 h]
  · have h' : '}' ∉ s.data.reverse := by simpa using h
    rw [(findCharIdx_eq_none_iff _ _).2 h']
    cases findCharIdx '{' s.data <;> rfl

/-! Helper lemmas on the defaulting fold of the field-extraction
normalizer. -/

theorem lookupField_append (d e : List (String × JVal)) (k : String) :
    lookupField (d ++ e) k =
      match lookupField d k with
      | some v => some v
      | none => lookupField e k := by
  unfold lookupField
  rw [List.find?_append]
  cases d.find? (fun kv => kv.1 == k) <;> simp [Option.orElse]

theorem lookupField_foldl_some (fs : List String)
    (d : List (String × JVal)) (k : String) (v : JVal)
    (h : lookupField d k = some v) :
    lookupField
      (fs.foldl (fun acc f => if (lookupField acc f).isSome then acc
        else acc ++ [(f, .arr [])]) d) k = some v := by
  induction fs generalizing d with
  | nil => simpa using h
  | cons f fs ih =>
      simp only [List.foldl_cons]
      split_ifs with hf
      · exact ih d h
      · refine ih _ ?_
        rw [lookupField_append, h]

theorem lookupField_foldl_defaults (fs : List String)
    (d : List (String × JVal)) (k : String) (hk : k ∈ fs) (hnd : fs.Nodup)
    (hnone : lookupField d k = none) :
    lookupField
      (fs.foldl (fun acc f => if (lookupField acc f).isSome then acc
        else acc ++ [(f, .arr [])]) d) k = some (.arr []) := by
  induction fs generalizing d with
  | nil => cases hk
  | cons f fs ih =>
      simp only [List.foldl_cons]
      by_cases hfk : f = k
      · subst hfk
        rw [if_neg (by rw [hnone]; simp)]
        refine lookupField_foldl_some fs _ f _ ?_
        rw [lookupField_append, hnone]
        simp [lookupField]
      · have hk' : k ∈ fs := by
          rcases List.mem_cons.1 hk with h | h
          · exact absurd h.symm hfk
          · exact h
        have hnd' : fs.Nodup := hnd.of_cons
        split_ifs with hf
        · exact ih _ hk' hnd' hnone
        · refine ih _ hk' hnd' ?_
          rw [lookupField_append, hnone]
          simp [lookupField, hfk]

/-! Helper lemmas on the batch report assembly. -/

theorem length_filterMap_sum {α β γ : Type} (f : α → β ⊕ γ) (l : List α) :
    ((l.map f).filterMap Sum.getLeft?).length +
      ((l.map f).filterMap Sum.getRight?).length = l.length := by
  induction l with
  | nil => simp
  | cons a l ih =>
      simp only [List.map_cons, List.filterMap_cons]
      cases hfa : f a with
      | inl b =>
          simp only [hfa, Sum.getLeft?_inl, Sum.getRight?_inl,
            List.length_cons]
          omega
      | inr c =>
          simp only [hfa, Sum.getLeft?_inr, Sum.getRight?_inr,
            List.length_cons]
          omega

/-! Helper lemmas for the semaphore invariant. -/

theorem if_one_comm {α : Type} [DecidableEq α] (u v : α) :
    (if u = v then (1 : Nat) else 0) = (if v = u then 1 else 0) := by
  by_cases h : u = v
  · simp [h]
  · simp [h, Ne.symm h]

theorem count_set_of_get? {α : Type} [DecidableEq α] (l : List α) (i : Nat)
    (a b c : α) (h : l.get? i = some a) :
    (l.set i b).count c + (if c = a then 1 else 0) =
      l.count c + (if c = b then 1 else 0) := by
  induction l generalizing i with
  | nil => simp at h
  | cons x xs ih =>
      cases i with
      | zero =>
          simp only [List.get?] at h
          injection h with h
          subst h
          simp only [List.set_cons_zero, List.count_cons, beq_iff_eq]
          rw [if_one_comm b c, if_one_comm x c]
          omega
      | succ j =>
          simp only [List.get?] at h
          have hih := ih j h
          simp only [List.set_cons_succ, List.count_cons, beq_iff_eq]
          omega

/-- The semaphore invariant: along every run, available permits plus
in-flight pipelines equals the initial permit count 3. -/
theorem semaphore_invariant (k : Nat) (s : SemState)
    (h : Relation.ReflTransGen SemStep (initState k) s) :
    s.avail + inFlight s = 3 := by
  induction h with
  | refl =>
      simp [initState, inFlight, List.count_replicate]
  | tail _ hstep ih =>
      cases hstep with
      | acquire n ts i hi =>
          have hc := count_set_of_get? ts i TaskPhase.waiting
            TaskPhase.running TaskPhase.running hi
          simp only [inFlight] at ih ⊢
          simp at hc
          omega
      | finish n ts i hi =>
          have hc := count_set_of_get? ts i TaskPhase.running
            TaskPhase.done TaskPhase.running hi
          simp only [inFlight] at ih ⊢
          simp at hc
          omega

/-! Claim theorems. -/

/-- C1: construction of a `QAEvaluation` enforces the total-score invariant
at construction time: every raw input whose submitted `total_score` differs
from the sum of all parameter scores across the 8 categories, or exceeds
100, fails with a `ValidationError`; and every successfully constructed
evaluation satisfies `0 ≤ total_score ≤ 100` with `total_score` equal to
the sum of its parameter scores. -/
theorem qa_total_score_construction_invariant (r : QAEvaluation) :
    ((r.total_score ≠ computeTotal r ∨ 100 < r.total_score) →
      ∃ e, r.construct = .error e) ∧
    (∀ ev, r.construct = .ok ev →
      0 ≤ ev.total_score ∧ ev.total_score ≤ 100 ∧
        ev.total_score = computeTotal ev) := by
  constructor
  · intro hbad
    cases hc : r.construct with
    | error e => exact ⟨e, rfl⟩
    | ok ev =>
        obtain ⟨heq, hl, ht, h100⟩ := QAEvaluation.construct_ok_inv r ev hc
        rcases hbad with h | h
        · exact absurd ht h
        · omega
  · intro ev hc
    obtain ⟨heq, hl, ht, h100⟩ := QAEvaluation.construct_ok_inv r ev hc
    have hb := computeTotal_bounds r hl
    rw [heq]
    exact ⟨by omega, h100, ht⟩

/-- Witness for C1: the all-maximum evaluation with a deliberately wrong
total of 99 is rejected with a `ValidationError`. -/
theorem qa_total_score_construction_invariant_witness :
    ∃ e, ({ fullScoreEval with total_score := 99 } :
      QAEvaluation).construct = .error e :=
  (qa_total_score_construction_invariant _).1 (by decide)

/-- C2: the rubric constraint is enforced per parameter: for every rubric
parameter, a submitted score outside that parameter's legal set makes
construction fail with exactly the `ValueError` naming that parameter
(given that no other parameter fails first), and a score inside the legal
set passes that parameter's own field validator. -/
theorem per_param_legal_set_enforced (p : Param) (r : QAEvaluation)
    (hothers : ∀ q, q ≠ p → Param.legal q (r.paramScore q) = true) :
    (Param.legal p (r.paramScore p) = false →
      r.construct = .error (.param p) ∧
        (Param.name p).data.isPrefixOf (VErr.param p).render.data = true) ∧
    (Param.legal p (r.paramScore p) = true →
      checkParam p r = .ok (r.paramEntry p)) :=
  ⟨fun hbad => ⟨c2_err p r hothers hbad, errText_names_param p⟩,
   fun hgood => c2_pass p r hgood⟩

/-- Witness for C2: `quality_check.attentive = 2` is rejected with the
`ValueError` naming `attentive` (2 is not in its legal set even though
2 ≤ 3), while `quality_check.tone_speed = 5` passes its own check. -/
theorem per_param_legal_set_enforced_witness :
    (({ fullScoreEval with quality_check :=
        { fullScoreEval.quality_check with attentive := ⟨2, none⟩ } } :
          QAEvaluation).construct = .error (.param .attentive) ∧
      (Param.name .attentive).data.isPrefixOf
        (VErr.param .attentive).render.data = true) ∧
    checkParam .tone_speed fullScoreEval =
      .ok (fullScoreEval.paramEntry .tone_speed) :=
  ⟨(per_param_legal_set_enforced .attentive _ (by decide)).1 (by decide),
   (per_param_legal_set_enforced .tone_speed fullScoreEval
      (by decide)).2 (by decide)⟩

/-- C6: at every instant of a bulk batch run — every state reachable from
the initial state of a batch of `k` files under the admission/completion
steps of the `asyncio.Semaphore(3)` discipline used by both the first pass
and the retry pass — at most 3 per-file pipelines are in flight, and a
further item is only admitted while a permit is free. -/
theorem bulk_concurrency_bounded (k : Nat) (s : SemState)
    (h : Relation.ReflTransGen SemStep (initState k) s) :
    inFlight s ≤ 3 := by
  have hinv := semaphore_invariant k s h
  omega

/-- Witness for C6: after admitting one task of a 3-file batch, one
pipeline is in flight and the bound holds. -/
theorem bulk_concurrency_bounded_witness :
    inFlight ⟨2, [TaskPhase.running, TaskPhase.waiting,
      TaskPhase.waiting]⟩ ≤ 3 :=
  bulk_concurrency_bounded 3 _
    (Relation.ReflTransGen.single (SemStep.acquire 2
      [TaskPhase.waiting, TaskPhase.waiting, TaskPhase.waiting] 0 rfl))

/-- C7: for every evaluation whose parameter scores all lie in their legal
sets, the recomputed total is at most 100 (the per-parameter maxima sum to
exactly 100), so the `total_score cannot exceed 100` rejection branch of
the total-score validator is unreachable under that precondition. -/
theorem legal_scores_cap_total (r : QAEvaluation) (hl : r.allLegal) :
    computeTotal r ≤ 100 ∧ r.construct ≠ .error VErr.totalExceeds := by
  have hb := computeTotal_bounds r hl
  refine ⟨hb.2, ?_⟩
  intro hcon
  by_cases ht : r.total_score = computeTotal r
  · by_cases h100 : r.total_score ≤ 100
    · rw [QAEvaluation.construct_eq_ok r hl ht h100] at hcon
      simp at hcon
    · omega
  · rw [QAEvaluation.construct_eq_mismatch r hl ht] at hcon
    simp at hcon

/-- Witness for C7: the all-maximum evaluation reaches exactly 100 and is
not rejected by the over-100 branch. -/
theorem legal_scores_cap_total_witness :
    computeTotal fullScoreEval = 100 ∧ computeTotal fullScoreEval ≤ 100 ∧
      fullScoreEval.construct ≠ .error VErr.totalExceeds :=
  ⟨by decide, (legal_scores_cap_total fullScoreEval (by decide)).1,
    (legal_scores_cap_total fullScoreEval (by decide)).2⟩

/-- C8 (code bug): the fallback mapping built by
`create_fallback_evaluation` hard-codes `total_score = 14`, but its own
parameter scores sum to 15 (hold procedure 4+4+4, polite 1, tone 1,
clarity 1), so although every individual score is legal, constructing a
`QAEvaluation` from the fallback always fails with the total-score
mismatch `ValidationError` — for every error message. -/
theorem fallback_evaluation_rejected (m : String) :
    (create_fallback_evaluation m).construct =
      .error (.totalMismatch 14 15) := by
  have hl : (create_fallback_evaluation m).allLegal := by
    intro p
    cases p <;> rfl
  have h := QAEvaluation.construct_eq_mismatch _ hl
    (show (14 : Int) ≠ 15 by decide)
  exact h

/-- Witness for C8 at a concrete error message. -/
theorem fallback_evaluation_rejected_witness :
    (create_fallback_evaluation "LLM returned no JSON").construct =
      .error (.totalMismatch 14 15) :=
  fallback_evaluation_rejected "LLM returned no JSON"

/-- C3: for every parsed LLM response dictionary that contains all 8
required sections, `_parse_qa_response` returns the mapping with
`total_score` overwritten by `_calculate_total_score`'s recomputed sum of
the parameter scores present — whatever `total_score` the LLM supplied, it
is never trusted. -/
theorem parse_qa_overwrites_total (d : QAData)
    (h1 : d.greeting.isSome = true) (h2 : d.information.isSome = true)
    (h3 : d.hold_procedure.isSome = true)
    (h4 : d.quality_check.isSome = true)
    (h5 : d.unsure_situation.isSome = true)
    (h6 : d.closing_script.isSome = true)
    (h7 : d.sound_quality.isSome = true)
    (h8 : d.record_handling.isSome = true) :
    parse_qa_response d =
      .ok { d with total_score := some (calculate_total_score d) } := by
  unfold parse_qa_response firstMissingSection requiredSections
  simp [List.find?, QAData.sectionPresent, h1, h2, h3, h4, h5, h6, h7, h8]

/-- Witness for C3: a response with all sections present but empty and an
LLM-supplied total of 42 comes back with the total overwritten by the
recomputed sum 0. -/
theorem parse_qa_overwrites_total_witness :
    parse_qa_response
      ⟨some ⟨none, none⟩, some ⟨none, none, none, none, none⟩,
        some ⟨none, none, none⟩, some ⟨none, none, none, none, none, none⟩,
        some ⟨none⟩, some ⟨none, none, none⟩, some ⟨none⟩,
        some ⟨none, none, none⟩, some 42⟩ =
      .ok ⟨some ⟨none, none⟩, some ⟨none, none, none, none, none⟩,
        some ⟨none, none, none⟩, some ⟨none, none, none, none, none, none⟩,
        some ⟨none⟩, some ⟨none, none, none⟩, some ⟨none⟩,
        some ⟨none, none, none⟩, some 0⟩ :=
  parse_qa_overwrites_total _ rfl rfl rfl rfl rfl rfl rfl rfl

/-- C4 counterexample: on the spec's own scenario — a parsed object with a
`total_score` of 42 and all 8 category sections absent — the QA response
parser raises `ValueError` (`Missing required section: greeting`, surfaced
as `Failed to parse QA response: ...`) instead of inserting default empty
mappings for the missing sections and returning a repaired mapping. -/
theorem parse_qa_missing_section_cex :
    parse_qa_response ⟨none, none, none, none, none, none, none, none,
        some 42⟩ =
      .error
        "Failed to parse QA response: Missing required section: greeting" :=
  rfl

/-- C4 (amended): for every parsed response dictionary missing at least one
of the 8 required sections, `_parse_qa_response` fails with the `ValueError`
naming the first absent section in the required order; it never inserts a
default empty mapping for an absent section.  (Default insertion exists
only in the field extractor, not in the QA response parser.) -/
theorem parse_qa_missing_section_errors (d : QAData) (s : String)
    (h : firstMissingSection d = some s) :
    parse_qa_response d =
      .error ("Failed to parse QA response: Missing required section: "
        ++ s) := by
  unfold parse_qa_response
  rw [h]

/-- Witness for the amended C4: a dictionary with only `greeting` present
fails naming `information`. -/
theorem parse_qa_missing_section_errors_witness :
    parse_qa_response ⟨some ⟨none, none⟩, none, none, none, none, none,
        none, none, none⟩ =
      .error
        ("Failed to parse QA response: Missing required section: "
          ++ "information") :=
  parse_qa_missing_section_errors _ "information" rfl

/-- C5 counterexample: in a batch of one file that fails its first attempt
and succeeds on retry, the retried success is appended to
`successful_files` as the bare result dictionary — carrying no
`attempt = 2` tag, contrary to the claim — while `failed_files` ends
empty. -/
theorem bulk_retry_success_untagged_cex :
    (bulk_upload_and_process
        [⟨"a.wav", .res false "boom", .res true ""⟩]).successful_files =
      [{ filename := "a.wav", attempt := none }] ∧
    ({ filename := "a.wav", attempt := none } : SuccessEntry).attempt ≠
      some 2 ∧
    (bulk_upload_and_process
        [⟨"a.wav", .res false "boom", .res true ""⟩]).failed_files = [] :=
  by decide

/-- C5 (amended): every item failing its first attempt is re-attempted
exactly once (structurally, no item has a third attempt in the model); an
item that succeeds on retry moves to `successful_files` — as the bare
result dictionary, without an `attempt` tag — and leaves `failed_files`;
an item that fails again stays in `failed_files` with `attempt = 2` and
its error message prefixed `Retry failed: `; and `successful_count` plus
`failed_count` always equals `total_files`. -/
theorem bulk_retry_report (files : List FileItem) :
    (bulk_upload_and_process files).successful_count +
        (bulk_upload_and_process files).failed_count =
      (bulk_upload_and_process files).total_files ∧
    (∀ e ∈ (bulk_upload_and_process files).failed_files,
      e.attempt = 2 ∧ ∃ m, e.error = "Retry failed: " ++ m) ∧
    (∀ e ∈ (bulk_upload_and_process files).successful_files,
      e.attempt = none) := by
  unfold bulk_upload_and_process
  refine ⟨?_, ?_, ?_⟩
  · simp only [List.length_append]
    have h1 := length_filterMap_sum firstPassStep files
    have h2 := length_filterMap_sum retryStep
      ((files.map firstPassStep).filterMap Sum.getRight?)
    omega
  · intro e he
    simp only [List.filterMap_map, List.mem_filterMap, Function.comp]
      at he
    obtain ⟨pair, hpair, hpe⟩ := he
    cases hsec : pair.1.second with
    | exc msg =>
        simp [retryStep, hsec] at hpe
        subst hpe
        exact ⟨rfl, msg, rfl⟩
    | res ok err =>
        cases ok with
        | true => simp [retryStep, hsec] at hpe
        | false =>
            simp [retryStep, hsec] at hpe
            subst hpe
            exact ⟨rfl, err, rfl⟩
  · intro e he
    simp only [List.mem_append, List.filterMap_map, List.mem_filterMap,
      Function.comp] at he
    rcases he with ⟨f, hf, hfe⟩ | ⟨pair, hpair, hpe⟩
    · cases hfst : f.first with
      | exc msg => simp [firstPassStep, hfst] at hfe
      | res ok err =>
          cases ok with
          | true =>
              simp [firstPassStep, hfst] at hfe
              rw [← hfe]
          | false => simp [firstPassStep, hfst] at hfe
    · cases hsec : pair.1.second with
      | exc msg => simp [retryStep, hsec] at hpe
      | res ok err =>
          cases ok with
          | true =>
              simp [retryStep, hsec] at hpe
              rw [← hpe]
          | false => simp [retryStep, hsec] at hpe

/-- Witness for the amended C5 on a concrete two-file batch: the file that
fails both attempts is reported with `attempt = 2` and a
`Retry failed: `-prefixed message. -/
theorem bulk_retry_report_witness :
    (⟨"b.wav", "Retry failed: down", 2⟩ : FailedEntry).attempt = 2 ∧
    ∃ m, (⟨"b.wav", "Retry failed: down", 2⟩ : FailedEntry).error =
      "Retry failed: " ++ m :=
  (bulk_retry_report
      [⟨"a.wav", .res true "", .res true ""⟩,
       ⟨"b.wav", .res false "boom", .exc "down"⟩]).2.1 _ (by decide)

/-- C9 counterexample: on input text with no brace at all, the field
extractor's normalizer does not fail with `NoJsonFoundError` — it returns
the substitute `_create_empty_result` mapping (all fields empty, an
`error` entry recording `No JSON found in response`). -/
theorem field_extractor_no_brace_cex :
    parse_gemini_response (fun _ => .error "never invoked") "hello world" =
      create_empty_result "No JSON found in response" :=
  rfl

/-- C9 (amended): for every input text containing no `{` or no `}`,
`_parse_gemini_response` returns `_create_empty_result` with the message
`No JSON found in response` — unlike the QA response parser, it raises
nothing and substitutes an empty mapping. -/
theorem field_extractor_no_brace_returns_empty
    (jsonLoads : String → Except String (List (String × JVal)))
    (s : String) (h : '{' ∉ s.data ∨ '}' ∉ s.data) :
    parse_gemini_response jsonLoads s =
      create_empty_result "No JSON found in response" := by
  unfold parse_gemini_response
  rw [braceCandidate_eq_none h]

/-- Witness for the amended C9 at a concrete brace-free input. -/
theorem field_extractor_no_brace_returns_empty_witness :
    parse_gemini_response (fun _ => .error "never invoked")
        "the model returned prose" =
      create_empty_result "No JSON found in response" :=
  field_extractor_no_brace_returns_empty _ _ (by decide)

/-- C10 counterexample: a parsed extraction object supplying
`agent_names` as a bare string is returned with that scalar unchanged —
the normalizer performs no coercion of non-list scalars into
single-element sequences. -/
theorem field_extractor_no_scalar_coercion_cex :
    lookupField
        (parse_gemini_response
          (fun _ => .ok [("agent_names", JVal.str "John")]) "{}")
        "agent_names" = some (JVal.str "John") ∧
    some (JVal.str "John") ≠ some (JVal.arr [JVal.str "John"]) :=
  ⟨rfl, by simp⟩

/-- C10 (amended): for every parsed extraction object, the normalizer
returns fields that are present — including non-list scalars — unchanged,
and defaults each absent required field to an empty sequence. -/
theorem field_extractor_defaults_missing_fields
    (jsonLoads : String → Except String (List (String × JVal)))
    (s js : String) (d : List (String × JVal))
    (hbr : braceCandidate s = some js) (hp : jsonLoads js = .ok d) :
    (∀ k v, lookupField d k = some v →
      lookupField (parse_gemini_response jsonLoads s) k = some v) ∧
    (∀ k, k ∈ required_fields → lookupField d k = none →
      lookupField (parse_gemini_response jsonLoads s) k =
        some (.arr [])) := by
  unfold parse_gemini_response fillMissingFields
  simp only [hbr, hp]
  constructor
  · intro k v hv
    exact lookupField_foldl_some _ _ _ _ hv
  · intro k hk hnone
    exact lookupField_foldl_defaults _ _ _ hk (by decide) hnone

/-- Witness for the amended C10: with `agent_names` supplied as a bare
string, the absent `patient_names` is defaulted to an empty sequence and
the scalar `agent_names` survives unchanged. -/
theorem field_extractor_defaults_missing_fields_witness :
    lookupField
        (parse_gemini_response
          (fun _ => .ok [("agent_names", JVal.str "John")]) "{}")
        "patient_names" = some (JVal.arr []) ∧
    lookupField
        (parse_gemini_response
          (fun _ => .ok [("agent_names", JVal.str "John")]) "{}")
        "agent_names" = some (JVal.str "John") :=
  ⟨(field_extractor_defaults_missing_fields
      (fun _ => .ok [("agent_names", JVal.str "John")]) "{}" "{}"
      [("agent_names", JVal.str "John")] rfl rfl).2
      "patient_names" (by decide) rfl,
   (field_extractor_defaults_missing_fields
      (fun _ => .ok [("agent_names", JVal.str "John")]) "{}" "{}"
      [("agent_names", JVal.str "John")] rfl rfl).1
      "agent_names" (JVal.str "John") rfl⟩

end CallQA
